import Mathlib

/-!
Shallow embedding of the ProjectPlant ESP32 pot firmware core
(`src/firmware/esp32_pot/main`): the preference store wrapper
(`preferences.c`), the schedule engine (`node_schedule.c`), the MQTT
command parser (`plant_mqtt.c`) and the startup onboarding state machine
(`startup_onboarding.c`), together with theorems settling the frozen
claims about them.

Modelling conventions:
* ESP-IDF error codes become the inductive `EspErr`; C functions that
  return `esp_err_t` and write through out-pointers become Lean
  functions returning the error paired with the out value / new state.
* The vendor NVS store is modelled as `NvsStore`: a list of typed
  entries keyed by (namespace, key), plus the set of namespaces that
  exist.  Opening a namespace read-only that was never written fails
  with `ESP_ERR_NVS_NOT_FOUND`, as in ESP-IDF; a read-write open
  creates the namespace.
* C strings become `String`; byte lengths (`strlen`, buffer bounds) use
  `String.utf8ByteSize`, and bounded copies (`strncpy`/`memcpy` into a
  fixed buffer) truncate to a byte budget, dropping a final character
  that does not fit whole (the only divergence from C, which may keep a
  split multi-byte character: unrepresentable in `String` and never
  exercised below).
* cJSON documents become the inductive `Json`; JSON numbers are
  modelled by their `valueint` view (an integer), the only view the
  parser reads.
-/

namespace ProjectPlant

/-- The ESP-IDF error codes that appear in the embedded sources. -/
inductive EspErr where
  | ok
  | fail
  | errNoMem
  | errInvalidArg
  | errInvalidState
  | errInvalidSize
  | errTimeout
  | errNvsNotFound
  | errNvsInvalidName
  | errNvsInvalidLength
  | errNvsTypeMismatch
  deriving DecidableEq, Repr

/-! ## NVS store model -/

/-- A typed value in the NVS store (`nvs_set_u8` / `_u32` / `_i32` / `_str`). -/
inductive NvsVal where
  | vu8 (v : Nat)
  | vu32 (v : Nat)
  | vi32 (v : Int)
  | vstr (s : String)
  deriving DecidableEq, Repr

/-- The NVS flash store: the namespaces that exist (a namespace comes
into existence on its first read-write open) and the stored entries,
most recent write first. -/
structure NvsStore where
  namespaces : List String
  entries : List ((String × String) × NvsVal)
  deriving DecidableEq, Repr

/-- The empty (factory-erased) NVS store. -/
def NvsStore.empty : NvsStore := { namespaces := [], entries := [] }

/-- Look up the entry for (namespace, key); first (most recent) match wins. -/
def nvsFind (st : NvsStore) (ns key : String) : Option NvsVal :=
  (st.entries.find? (fun e => e.1.1 == ns && e.1.2 == key)).map Prod.snd

/-- Write an entry, replacing any previous value for the same
(namespace, key) and creating the namespace.  Models
`nvs_open(..., NVS_READWRITE, ...)` + `nvs_set_*` + `nvs_commit`. -/
def nvsSet (st : NvsStore) (ns key : String) (v : NvsVal) : NvsStore :=
  { namespaces := if ns ∈ st.namespaces then st.namespaces else ns :: st.namespaces,
    entries := ((ns, key), v) :: st.entries.filter (fun e => !(e.1.1 == ns && e.1.2 == key)) }

/-- `nvs_get_u8`: `ESP_ERR_NVS_NOT_FOUND` when the key is absent,
`ESP_ERR_NVS_TYPE_MISMATCH` when it holds a different type. -/
def nvs_get_u8 (st : NvsStore) (ns key : String) : Except EspErr Nat :=
  match nvsFind st ns key with
  | some (.vu8 v) => .ok v
  | some _ => .error .errNvsTypeMismatch
  | none => .error .errNvsNotFound

/-- `nvs_get_u32`. -/
def nvs_get_u32 (st : NvsStore) (ns key : String) : Except EspErr Nat :=
  match nvsFind st ns key with
  | some (.vu32 v) => .ok v
  | some _ => .error .errNvsTypeMismatch
  | none => .error .errNvsNotFound

/-- `nvs_get_i32`. -/
def nvs_get_i32 (st : NvsStore) (ns key : String) : Except EspErr Int :=
  match nvsFind st ns key with
  | some (.vi32 v) => .ok v
  | some _ => .error .errNvsTypeMismatch
  | none => .error .errNvsNotFound

/-- `nvs_get_str`. -/
def nvs_get_str (st : NvsStore) (ns key : String) : Except EspErr String :=
  match nvsFind st ns key with
  | some (.vstr s) => .ok s
  | some _ => .error .errNvsTypeMismatch
  | none => .error .errNvsNotFound

/-! ## preferences.c

A NULL namespace pointer and the empty string both resolve to the
default namespace, so the nullable `const char *nvs_namespace` is
modelled as a plain `String` with `""` standing for NULL as well. -/

/-- `resolve_namespace` from `preferences.c`. -/
def resolve_namespace (ns : String) : String :=
  if ns ≠ "" then ns else "app"

/-- Longest prefix of `cs` whose UTF-8 size fits in `budget` bytes
(byte-bounded copy into a C buffer). -/
def takeBytes : Nat → List Char → List Char
  | _, [] => []
  | budget, c :: cs =>
    if c.utf8Size ≤ budget then c :: takeBytes (budget - c.utf8Size) cs else []

/-- `copy_default_str` from `preferences.c`: copy at most `cap - 1`
bytes of the default into the out buffer of capacity `cap`. -/
def copy_default_str (cap : Nat) (dflt : String) : String :=
  String.mk (takeBytes (cap - 1) dflt.data)

/-- `prefs_get_u8`: `out0` is the value behind the caller's out-pointer
before the call (only overwritten when the function ends with
`ESP_OK`, as in the C code). -/
def prefs_get_u8 (st : NvsStore) (ns key : String) (out0 dflt : Nat) : EspErr × Nat :=
  if resolve_namespace ns ∈ st.namespaces then
    match nvs_get_u8 st (resolve_namespace ns) key with
    | .ok v => (.ok, v)
    | .error .errNvsNotFound => (.ok, dflt)
    | .error e => (e, out0)
  else (.errNvsNotFound, out0)

/-- `prefs_put_u8` (the stored byte is the argument reduced mod 2^8). -/
def prefs_put_u8 (st : NvsStore) (ns key : String) (v : Nat) : EspErr × NvsStore :=
  (.ok, nvsSet st (resolve_namespace ns) key (.vu8 (v % 2 ^ 8)))

/-- `prefs_get_u32`. -/
def prefs_get_u32 (st : NvsStore) (ns key : String) (out0 dflt : Nat) : EspErr × Nat :=
  if resolve_namespace ns ∈ st.namespaces then
    match nvs_get_u32 st (resolve_namespace ns) key with
    | .ok v => (.ok, v)
    | .error .errNvsNotFound => (.ok, dflt)
    | .error e => (e, out0)
  else (.errNvsNotFound, out0)

/-- `prefs_put_u32`. -/
def prefs_put_u32 (st : NvsStore) (ns key : String) (v : Nat) : EspErr × NvsStore :=
  (.ok, nvsSet st (resolve_namespace ns) key (.vu32 (v % 2 ^ 32)))

/-- `prefs_get_i32`. -/
def prefs_get_i32 (st : NvsStore) (ns key : String) (out0 dflt : Int) : EspErr × Int :=
  if resolve_namespace ns ∈ st.namespaces then
    match nvs_get_i32 st (resolve_namespace ns) key with
    | .ok v => (.ok, v)
    | .error .errNvsNotFound => (.ok, dflt)
    | .error e => (e, out0)
  else (.errNvsNotFound, out0)

/-- Two's-complement wrap of an integer into the `int32_t` range. -/
def i32wrap (z : Int) : Int :=
  (z + 2 ^ 31) % 2 ^ 32 - 2 ^ 31

/-- `prefs_put_i32`. -/
def prefs_put_i32 (st : NvsStore) (ns key : String) (v : Int) : EspErr × NvsStore :=
  (.ok, nvsSet st (resolve_namespace ns) key (.vi32 (i32wrap v)))

/-- `prefs_put_bool`: stored through `prefs_put_u8` as 1 / 0. -/
def prefs_put_bool (st : NvsStore) (ns key : String) (v : Bool) : EspErr × NvsStore :=
  prefs_put_u8 st ns key (if v then 1 else 0)

/-- `prefs_get_bool`: delegates to `prefs_get_u8` with the default
encoded as raw 1 / 0 (which is also the initial raw out value). -/
def prefs_get_bool (st : NvsStore) (ns key : String) (out0 dflt : Bool) : EspErr × Bool :=
  let raw0 : Nat := if dflt then 1 else 0
  let r := prefs_get_u8 st ns key raw0 raw0
  if r.1 = .ok then (r.1, r.2 ≠ 0) else (r.1, out0)

/-- `prefs_get_str`: `cap` is `out_value_len` in bytes; a stored string
only fits when its byte size plus the terminator is within `cap`
(`nvs_get_str` reports `ESP_ERR_NVS_INVALID_LENGTH` otherwise). -/
def prefs_get_str (st : NvsStore) (ns key : String) (out0 : String) (cap : Nat)
    (dflt : String) : EspErr × String :=
  if cap = 0 then (.errInvalidArg, out0)
  else if resolve_namespace ns ∈ st.namespaces then
    match nvs_get_str st (resolve_namespace ns) key with
    | .ok s => if s.utf8ByteSize + 1 ≤ cap then (.ok, s) else (.errNvsInvalidLength, out0)
    | .error .errNvsNotFound => (.ok, copy_default_str cap dflt)
    | .error e => (e, out0)
  else (.errNvsNotFound, out0)

/-- `prefs_put_str`. -/
def prefs_put_str (st : NvsStore) (ns key : String) (v : String) : EspErr × NvsStore :=
  (.ok, nvsSet st (resolve_namespace ns) key (.vstr v))

/-- `is_pref_missing`, defined identically in `node_schedule.c` and
`startup_onboarding.c`. -/
def is_pref_missing (e : EspErr) : Bool :=
  e == .errNvsNotFound || e == .errNvsInvalidName

/-! ## node_schedule.c: data model -/

/-- `node_schedule_timer_t`: minute fields are `uint16_t`, modelled as
`Nat` (all writers keep them below 1440). -/
structure NodeScheduleTimer where
  enabled : Bool
  start_minute : Nat
  end_minute : Nat
  deriving DecidableEq, Repr

/-- `node_schedule_t`: the timezone offset is `int16_t`, modelled as `Int`. -/
structure NodeSchedule where
  light : NodeScheduleTimer
  pump : NodeScheduleTimer
  mister : NodeScheduleTimer
  fan : NodeScheduleTimer
  timezone_offset_minutes : Int
  deriving DecidableEq, Repr

/-- `DEFAULT_LIGHT` / `DEFAULT_PUMP` / `DEFAULT_MISTER` / `DEFAULT_FAN`
and `node_schedule_defaults`. -/
def node_schedule_defaults : NodeSchedule :=
  { light := { enabled := false, start_minute := 6 * 60, end_minute := 20 * 60 },
    pump := { enabled := false, start_minute := 7 * 60, end_minute := 7 * 60 + 15 },
    mister := { enabled := false, start_minute := 8 * 60, end_minute := 8 * 60 + 15 },
    fan := { enabled := false, start_minute := 9 * 60, end_minute := 18 * 60 },
    timezone_offset_minutes := 0 }

/-- `is_valid_timer`. -/
def is_valid_timer (t : NodeScheduleTimer) : Bool :=
  t.start_minute < 1440 && t.end_minute < 1440

/-- `is_valid_schedule` (`TZ_OFFSET_MIN = -720`, `TZ_OFFSET_MAX = 840`). -/
def is_valid_schedule (s : NodeSchedule) : Bool :=
  is_valid_timer s.light && is_valid_timer s.pump &&
    is_valid_timer s.mister && is_valid_timer s.fan &&
    decide (-720 ≤ s.timezone_offset_minutes) && decide (s.timezone_offset_minutes ≤ 840)

/-- `node_schedule_parse_hhmm`.  The C code checks `strlen(value) == 5`
(bytes) and then byte-compares positions 0..4 against ASCII digits and
`:`; a byte of a multi-byte character can never pass those comparisons,
so byte positions and character positions coincide on every accepted
input, and the character-level pattern below is exact. -/
def node_schedule_parse_hhmm (value : String) : Option Nat :=
  match value.data with
  | [c0, c1, c2, c3, c4] =>
    if c2 = ':' then
      if ('0' ≤ c0 ∧ c0 ≤ '9') ∧ ('0' ≤ c1 ∧ c1 ≤ '9') ∧
          ('0' ≤ c3 ∧ c3 ≤ '9') ∧ ('0' ≤ c4 ∧ c4 ≤ '9') then
        let hour := (c0.toNat - '0'.toNat) * 10 + (c1.toNat - '0'.toNat)
        let minute := (c3.toNat - '0'.toNat) * 10 + (c4.toNat - '0'.toNat)
        if hour ≤ 23 ∧ minute ≤ 59 then some (hour * 60 + minute) else none
      else none
    else none
  | _ => none

/-- `timer_is_active` (the minute argument is a C `int`). -/
def timer_is_active (t : NodeScheduleTimer) (minute_of_day : Int) : Bool :=
  if !t.enabled then false
  else
    let start : Int := t.start_minute
    let stop : Int := t.end_minute
    if start = stop then true
    else if start < stop then decide (start ≤ minute_of_day) && decide (minute_of_day < stop)
    else decide (start ≤ minute_of_day) || decide (minute_of_day < stop)

/-! ## node_schedule.c: live state and operations

The module's globals (`schedule_state`, `schedule_initialized`,
`last_applied_minute`) together with the actuator states behind
`sensors_set_*` and the NVS store become an explicit state record; the
mutex always succeeds in this single-threaded embedding, and
`time_sync_is_time_valid` / `gettimeofday` become an environment. -/

/-- The four actuator output states behind `sensors_get_* / sensors_set_*`. -/
structure Actuators where
  light_on : Bool
  pump_on : Bool
  mister_on : Bool
  fan_on : Bool
  deriving DecidableEq, Repr

/-- Wall-clock environment of the schedule engine. -/
structure SchedEnv where
  time_valid : Bool
  now_sec : Int
  deriving DecidableEq, Repr

/-- The schedule engine's mutable state. -/
structure SchedState where
  initialized : Bool
  schedule : NodeSchedule
  store : NvsStore
  actuators : Actuators
  last_applied_minute : Int
  deriving DecidableEq, Repr

/-- `save_schedule_locked`: persist all 13 fields individually under the
`schedule` namespace (each `prefs_put_*` succeeds in this model). -/
def save_schedule_locked (store : NvsStore) (s : NodeSchedule) : EspErr × NvsStore :=
  let st := (prefs_put_bool store "schedule" "l_en" s.light.enabled).2
  let st := (prefs_put_u32 st "schedule" "l_st" s.light.start_minute).2
  let st := (prefs_put_u32 st "schedule" "l_et" s.light.end_minute).2
  let st := (prefs_put_bool st "schedule" "p_en" s.pump.enabled).2
  let st := (prefs_put_u32 st "schedule" "p_st" s.pump.start_minute).2
  let st := (prefs_put_u32 st "schedule" "p_et" s.pump.end_minute).2
  let st := (prefs_put_bool st "schedule" "m_en" s.mister.enabled).2
  let st := (prefs_put_u32 st "schedule" "m_st" s.mister.start_minute).2
  let st := (prefs_put_u32 st "schedule" "m_et" s.mister.end_minute).2
  let st := (prefs_put_bool st "schedule" "f_en" s.fan.enabled).2
  let st := (prefs_put_u32 st "schedule" "f_st" s.fan.start_minute).2
  let st := (prefs_put_u32 st "schedule" "f_et" s.fan.end_minute).2
  prefs_put_i32 st "schedule" "tz_ofs" s.timezone_offset_minutes

/-- `current_minute_of_day`: local minutes modulo 1440, with the C `%`
(truncating) followed by the negative-result fixup. -/
def current_minute_of_day (env : SchedEnv) (timezone_offset_minutes : Int) : Option Int :=
  if !env.time_valid then none
  else
    let local_minutes := env.now_sec / 60 + timezone_offset_minutes
    let minute := Int.tmod local_minutes 1440
    some (if minute < 0 then minute + 1440 else minute)

/-- `apply_schedule_state`: drive each actuator to its window's desired
state (the C code skips the write when the state already matches; the
resulting actuator state is the same). -/
def apply_schedule_state (s : NodeSchedule) (minute_of_day : Int) : Actuators :=
  { light_on := timer_is_active s.light minute_of_day,
    pump_on := timer_is_active s.pump minute_of_day,
    mister_on := timer_is_active s.mister minute_of_day,
    fan_on := timer_is_active s.fan minute_of_day }

/-- `apply_now_if_possible`. -/
def apply_now_if_possible (env : SchedEnv) (st : SchedState) : SchedState :=
  if !st.initialized then st
  else
    match current_minute_of_day env st.schedule.timezone_offset_minutes with
    | none => st
    | some minute =>
      { st with actuators := apply_schedule_state st.schedule minute,
                last_applied_minute := minute }

/-- `node_schedule_set`. -/
def node_schedule_set (env : SchedEnv) (st : SchedState) (s : NodeSchedule) :
    EspErr × SchedState :=
  if !st.initialized then (.errInvalidState, st)
  else if !is_valid_schedule s then (.errInvalidArg, st)
  else
    let st1 := { st with schedule := s }
    let saved := save_schedule_locked st1.store s
    let st2 := { st1 with store := saved.2 }
    if saved.1 ≠ .ok then (saved.1, st2)
    else (.ok, apply_now_if_possible env st2)

/-! ## cJSON document model

`mqtt_parse_command` receives a byte buffer and hands it to the vendor
cJSON parser; everything after `cJSON_Parse` operates on the parsed
tree.  The embedding therefore takes an `Option Json`: `none` for an
empty / unallocatable / unparseable payload (all of which yield the
default command in C), `some root` for a successfully parsed document. -/

/-- A parsed cJSON value.  Numbers carry their `valueint` view, the only
view the command parser reads. -/
inductive Json where
  | jnull
  | jbool (b : Bool)
  | jnum (n : Int)
  | jstr (s : String)
  | jarr (elems : List Json)
  | jobj (fields : List (String × Json))

/-- `cJSON_GetObjectItemCaseSensitive`: first field with a byte-equal
name; NULL on a non-object. -/
def jget (root : Json) (key : String) : Option Json :=
  match root with
  | .jobj fields => (fields.find? (fun kv => kv.1 == key)).map Prod.snd
  | _ => none

/-- `cJSON_IsString(item) && item->valuestring` as one lookup. -/
def jgetStr (root : Json) (key : String) : Option String :=
  match jget root key with
  | some (.jstr s) => some s
  | _ => none

/-- `cJSON_IsBool(item)` as one lookup (`cJSON_IsTrue` gives the value). -/
def jgetBool (root : Json) (key : String) : Option Bool :=
  match jget root key with
  | some (.jbool b) => some b
  | _ => none

/-- Object with the listed keys removed (for stating that a field is
never inspected); non-objects are returned unchanged. -/
def jdrop (root : Json) (keys : List String) : Json :=
  match root with
  | .jobj fields => .jobj (fields.filter (fun kv => !(keys.contains kv.1)))
  | other => other

/-! ## plant_mqtt.c: command parsing -/

/-- `sensor_mode_t`. -/
inductive SensorMode where
  | full
  | controlOnly
  deriving DecidableEq, Repr

/-- `mqtt_command_type_t`. -/
inductive MqttCommandType where
  | unknown
  | pumpOverride
  | configUpdate
  | sensorRead
  | fanOverride
  | misterOverride
  | lightOverride
  deriving DecidableEq, Repr

/-- `mqtt_command_t`. -/
structure MqttCommand where
  type : MqttCommandType
  request_id : String
  device_name : String
  has_sensor_mode : Bool
  has_schedule : Bool
  sensor_mode : SensorMode
  schedule : NodeSchedule
  pump_on : Bool
  fan_on : Bool
  mister_on : Bool
  light_on : Bool
  duration_ms : Nat
  deriving DecidableEq, Repr

/-- The zero-initialised command built at the top of `mqtt_parse_command`. -/
def mqtt_cmd_default : MqttCommand :=
  { type := .unknown, request_id := "", device_name := "",
    has_sensor_mode := false, has_schedule := false,
    sensor_mode := .full, schedule := node_schedule_defaults,
    pump_on := false, fan_on := false, mister_on := false, light_on := false,
    duration_ms := 0 }

/-- `parse_schedule_timer`: requires an object with a boolean `enabled`
and `HH:MM` strings `startTime` / `endTime`. -/
def parse_schedule_timer (schedule_obj : Json) (nm : String) : Option NodeScheduleTimer :=
  match jget schedule_obj nm with
  | some tobj =>
    match tobj with
    | .jobj _ =>
      match jgetBool tobj "enabled", jgetStr tobj "startTime", jgetStr tobj "endTime" with
      | some en, some stime, some etime =>
        match node_schedule_parse_hhmm stime, node_schedule_parse_hhmm etime with
        | some sm, some em => some { enabled := en, start_minute := sm, end_minute := em }
        | _, _ => none
      | _, _, _ => none
    | _ => none
  | none => none

/-- The `tzOffsetMinutes` item: top level first, then inside the
`schedule` object. -/
def schedule_tz_item (root sobj : Json) : Option Json :=
  match jget root "tzOffsetMinutes" with
  | some t => some t
  | none => jget sobj "tzOffsetMinutes"

/-- The timezone offset applied to a parsed schedule: the item's value
when it is a number within [-720, 840], else the default 0. -/
def schedule_tz_value (root sobj : Json) : Int :=
  match schedule_tz_item root sobj with
  | some (.jnum v) => if -720 ≤ v ∧ v ≤ 840 then v else 0
  | _ => 0

/-- `parse_schedule_config`: all four timers must parse; the optional
`tzOffsetMinutes` is applied only when in range, else the default 0 stays. -/
def parse_schedule_config (root : Json) : Option NodeSchedule :=
  match jget root "schedule" with
  | some sobj =>
    match sobj with
    | .jobj _ =>
      match parse_schedule_timer sobj "light", parse_schedule_timer sobj "pump",
          parse_schedule_timer sobj "mister", parse_schedule_timer sobj "fan" with
      | some l, some p, some m, some f =>
        some { light := l, pump := p, mister := m, fan := f,
               timezone_offset_minutes := schedule_tz_value root sobj }
      | _, _, _, _ => none
    | _ => none
  | none => none

/-- The `requestId` block: copy when strictly shorter than the 64-byte
bound, else leave the field empty. -/
def apply_request_id (root : Json) (cmd : MqttCommand) : MqttCommand :=
  match jgetStr root "requestId" with
  | some s =>
    if s.utf8ByteSize < 64 then { cmd with request_id := s }
    else { cmd with request_id := "" }
  | none => cmd

/-- The `deviceName` item with fallback to `displayName` (the fallback
fires only when `deviceName` is absent entirely). -/
def device_name_item (root : Json) : Option Json :=
  match jget root "deviceName" with
  | some v => some v
  | none => jget root "displayName"

/-- The `deviceName` / `displayName` block (`DEVICE_NAME_MAX_LEN = 32`). -/
def apply_device_name (root : Json) (cmd : MqttCommand) : MqttCommand :=
  match device_name_item root with
  | some (.jstr s) =>
    if 0 < s.utf8ByteSize ∧ s.utf8ByteSize < 32 then
      { cmd with device_name := s, type := .configUpdate }
    else { cmd with device_name := "" }
  | _ => cmd

/-- ASCII case folding as C's `strcasecmp` performs it in the C locale
(`Char.toLower` lowercases exactly the ASCII range). -/
def ascii_lower (s : String) : String :=
  String.mk (s.data.map Char.toLower)

/-- The `strcasecmp` matching of `sensorMode` strings. -/
def sensor_mode_of_string (s : String) : Option SensorMode :=
  if ascii_lower s = "control_only" ∨ ascii_lower s = "control-only" ∨
      ascii_lower s = "control" then
    some .controlOnly
  else if ascii_lower s = "full" ∨ ascii_lower s = "sensors" ∨
      ascii_lower s = "enabled" then
    some .full
  else none

/-- The `sensorMode` block. -/
def apply_sensor_mode (root : Json) (cmd : MqttCommand) : MqttCommand :=
  match jgetStr root "sensorMode" with
  | some s =>
    match sensor_mode_of_string s with
    | some m => { cmd with sensor_mode := m, has_sensor_mode := true, type := .configUpdate }
    | none => cmd
  | none => cmd

/-- The `sensorsEnabled` block: a boolean overwrites whatever
`sensorMode` chose. -/
def apply_sensors_enabled (root : Json) (cmd : MqttCommand) : MqttCommand :=
  match jgetBool root "sensorsEnabled" with
  | some b =>
    { cmd with sensor_mode := if b then .full else .controlOnly,
               has_sensor_mode := true, type := .configUpdate }
  | none => cmd

/-- The `schedule` block. -/
def apply_schedule (root : Json) (cmd : MqttCommand) : MqttCommand :=
  match parse_schedule_config root with
  | some s => { cmd with schedule := s, has_schedule := true, type := .configUpdate }
  | none => cmd

/-- The identity/config phase of `mqtt_parse_command`: everything up to
the early `return` for `MQTT_CMD_CONFIG_UPDATE`. -/
def config_phase (root : Json) : MqttCommand :=
  apply_schedule root
    (apply_sensors_enabled root
      (apply_sensor_mode root
        (apply_device_name root
          (apply_request_id root mqtt_cmd_default))))

/-- The `action` / `command` string (the `command` key is consulted only
when `action` is absent or not a string). -/
def action_value (root : Json) : Option String :=
  match jgetStr root "action" with
  | some s => some s
  | none => jgetStr root "command"

/-- The `action` block. -/
def apply_action (root : Json) (cmd : MqttCommand) : MqttCommand :=
  match action_value root with
  | some s =>
    if s = "sensor_read" ∨ s = "sensorRead" then { cmd with type := .sensorRead } else cmd
  | none => cmd

/-- The guard each actuator key must pass
(`item && (cJSON_IsBool(item) || (cJSON_IsString(item) && item->valuestring))`)
and the resulting on/off flag: a boolean gives its value, a string gives
`true` exactly for `"on"` (any other string leaves the flag `false`). -/
def actuator_flag (v : Json) : Option Bool :=
  match v with
  | .jbool b => some b
  | .jstr s => some (s == "on")
  | _ => none

/-- The optional `duration_ms`: attached only when it is a number with a
positive `valueint`. -/
def get_duration (root : Json) : Option Nat :=
  match jget root "duration_ms" with
  | some (.jnum v) => if 0 < v then some v.toNat else none
  | _ => none

/-- The actuator cascade of `mqtt_parse_command`: `pump`, `fan`,
`mister`, `light` in that fixed order, first qualifying key wins. -/
def apply_actuators (root : Json) (cmd : MqttCommand) : MqttCommand :=
  match (jget root "pump").bind actuator_flag with
  | some b =>
    let cmd := { cmd with type := .pumpOverride, pump_on := b }
    match get_duration root with
    | some d => { cmd with duration_ms := d }
    | none => cmd
  | none =>
    match (jget root "fan").bind actuator_flag with
    | some b =>
      let cmd := { cmd with type := .fanOverride, fan_on := b }
      match get_duration root with
      | some d => { cmd with duration_ms := d }
      | none => cmd
    | none =>
      match (jget root "mister").bind actuator_flag with
      | some b =>
        let cmd := { cmd with type := .misterOverride, mister_on := b }
        match get_duration root with
        | some d => { cmd with duration_ms := d }
        | none => cmd
      | none =>
        match (jget root "light").bind actuator_flag with
        | some b =>
          let cmd := { cmd with type := .lightOverride, light_on := b }
          match get_duration root with
          | some d => { cmd with duration_ms := d }
          | none => cmd
        | none => cmd

/-- `mqtt_parse_command` on the outcome of `cJSON_Parse`. -/
def mqtt_parse_command (payload : Option Json) : MqttCommand :=
  match payload with
  | none => mqtt_cmd_default
  | some root =>
    let cmd := config_phase root
    if cmd.type = .configUpdate then cmd
    else apply_actuators root (apply_action root cmd)

/-! ## startup_onboarding.c

The Wi-Fi stack, provisioning manager and event group are vendor
collaborators; each blocking call site's outcome becomes a field of
`OnboardEnv`.  The provisioning wait loop exits only on the
connected event, so the provisioning branch ends connected, after
folding the hub-endpoint payloads (`OnboardEnv.hub_msgs`) that arrived
during provisioning over the hub-config state.  Nullable C string
arguments are `Option String`. -/

/-- `startup_onboarding_state_t`. -/
structure OnboardState where
  factory_default : Bool
  provisioning_started : Bool
  wifi_connected : Bool
  ble_transport : Bool
  mqtt_uri : String
  hub_url : String
  deriving DecidableEq, Repr

/-- The `memset(out_state, 0, ...)` value. -/
def onboard_state_zero : OnboardState :=
  { factory_default := false, provisioning_started := false, wifi_connected := false,
    ble_transport := false, mqtt_uri := "", hub_url := "" }

/-- Environment of one onboarding run: the outcomes of every
vendor-collaborator call site. -/
structure OnboardEnv where
  bt_enabled : Bool
  init_wifi_err : EspErr
  prov_init_err : EspErr
  is_provisioned_err : EspErr
  wifi_provisioned : Bool
  fallback_connect : EspErr
  saved_connect : EspErr
  endpoint_create_err : EspErr
  prov_start_err : EspErr
  register_err : EspErr
  hub_msgs : List (Option Json)

/-- Result of `startup_onboarding_run`: the returned `esp_err_t`, the
out state, and the NVS store after the run. -/
structure OnboardResult where
  err : EspErr
  state : OnboardState
  store : NvsStore

/-- `safe_copy` into a buffer of `cap` bytes: keep at most `cap - 1`
bytes (`strncpy` + forced terminator). -/
def safe_copy (cap : Nat) (v : String) : String :=
  String.mk (takeBytes (cap - 1) v.data)

/-- `load_onboarding_complete`: `(err, complete, missing)`. -/
def load_onboarding_complete (store : NvsStore) : EspErr × Bool × Bool :=
  let r := prefs_get_bool store "onboard" "complete" false false
  if r.1 = .ok then (.ok, r.2, false)
  else if is_pref_missing r.1 then (.ok, false, true)
  else (r.1, false, false)

/-- `persist_onboarding_complete`. -/
def persist_onboarding_complete (store : NvsStore) (complete : Bool) : EspErr × NvsStore :=
  prefs_put_bool store "onboard" "complete" complete

/-- `load_persisted_str`: the out buffer is first overwritten with the
(truncated) default, then `prefs_get_str` runs over it; a missing key or
namespace is not an error. -/
def load_persisted_str (store : NvsStore) (key : String) (cap : Nat) (dflt : String) :
    EspErr × String :=
  let out1 := safe_copy cap dflt
  let r := prefs_get_str store "onboard" key out1 cap dflt
  if r.1 = .ok ∨ is_pref_missing r.1 then (.ok, r.2) else (r.1, r.2)

/-- `persist_hub_settings`: rejects an empty MQTT URI, else writes both keys. -/
def persist_hub_settings (store : NvsStore) (mqtt_uri hub_url : String) :
    EspErr × NvsStore :=
  if mqtt_uri = "" then (.errInvalidArg, store)
  else
    let s1 := (prefs_put_str store "onboard" "mqtt_uri" mqtt_uri).2
    prefs_put_str s1 "onboard" "hub_url" hub_url

/-- `mqtt_uri_state` after the two `load_persisted_str` calls at the top
of `startup_onboarding_run`. -/
def onboard_loaded_mqtt_uri (store : NvsStore) (default_uri : String) : String :=
  (load_persisted_str store "mqtt_uri" 128 default_uri).2

/-- `hub_url_state` after the loads at the top of `startup_onboarding_run`. -/
def onboard_loaded_hub_url (store : NvsStore) : String :=
  (load_persisted_str store "hub_url" 128 "").2

/-- `connect_with_fallback_credentials` (Wi-Fi calls collapsed into the
environment outcome; the argument checks are the C ones). -/
def connect_with_fallback_credentials (env : OnboardEnv)
    (ssid password : Option String) : EspErr :=
  match ssid, password with
  | some s, some _ => if s = "" then .errInvalidArg else env.fallback_connect
  | _, _ => .errInvalidArg

/-- The hub-config state mutated by the provisioning data endpoint. -/
structure HubCfg where
  mqtt_uri : String
  hub_url : String
  store : NvsStore

/-- `parse_hub_payload` on one endpoint message (`none` = unparseable
buffer): `(err, changed, new state)`.  A camel-case key that is present
but not a string falls back to the snake-case key; an empty `mqttUri`
string is ignored; an empty `hubUrl` string is accepted.  On a change
the settings are persisted. -/
def parse_hub_payload (msg : Option Json) (cfg : HubCfg) : EspErr × Bool × HubCfg :=
  match msg with
  | none => (.errInvalidArg, false, cfg)
  | some root =>
    let uriItem := match jgetStr root "mqttUri" with
                   | some s => some s
                   | none => jgetStr root "mqtt_uri"
    let urlItem := match jgetStr root "hubUrl" with
                   | some s => some s
                   | none => jgetStr root "hub_url"
    let step1 : HubCfg × Bool :=
      match uriItem with
      | some s => if s ≠ "" then ({ cfg with mqtt_uri := safe_copy 128 s }, true)
                  else (cfg, false)
      | none => (cfg, false)
    let step2 : HubCfg × Bool :=
      match urlItem with
      | some s => ({ step1.1 with hub_url := safe_copy 128 s }, true)
      | none => step1
    if step2.2 then
      let p := persist_hub_settings step2.1.store step2.1.mqtt_uri step2.1.hub_url
      if p.1 ≠ .ok then (p.1, false, { step2.1 with store := p.2 })
      else (.ok, true, { step2.1 with store := p.2 })
    else (.ok, false, step2.1)

/-- The hub-endpoint messages processed during the provisioning wait
(the handler ignores the per-message error beyond its response). -/
def hub_loop (msgs : List (Option Json)) (cfg : HubCfg) : HubCfg :=
  msgs.foldl (fun c m => (parse_hub_payload m c).2.2) cfg

/-- `startup_onboarding_run`. -/
def startup_onboarding_run (env : OnboardEnv) (store0 : NvsStore)
    (device_id : Option String) (default_mqtt_uri : Option String)
    (fallback_ssid fallback_password : Option String) : OnboardResult :=
  match default_mqtt_uri with
  | none => { err := .errInvalidArg, state := onboard_state_zero, store := store0 }
  | some dflt_uri =>
    let _ := device_id
    let uri0 := onboard_loaded_mqtt_uri store0 dflt_uri
    let url0 := onboard_loaded_hub_url store0
    let lc := load_onboarding_complete store0
    let setup_complete := if lc.1 = .ok then lc.2.1 else false
    let setup_missing := if lc.1 = .ok then lc.2.2 else true
    if env.init_wifi_err ≠ .ok then
      { err := env.init_wifi_err, state := onboard_state_zero, store := store0 }
    else if env.prov_init_err ≠ .ok then
      { err := env.prov_init_err, state := onboard_state_zero, store := store0 }
    else if env.is_provisioned_err ≠ .ok then
      { err := env.is_provisioned_err, state := onboard_state_zero, store := store0 }
    else
      let provisioned := env.wifi_provisioned
      let migrate := setup_missing && provisioned
      let store1 := if migrate then (persist_onboarding_complete store0 true).2 else store0
      let setup_complete := setup_complete || migrate
      let factory_default := !provisioned || !setup_complete
      let st0 := { onboard_state_zero with factory_default := factory_default }
      if factory_default then
        let has_fallback := match fallback_ssid with
                            | some s => s ≠ ""
                            | none => false
        let fb := connect_with_fallback_credentials env fallback_ssid
                    (some (fallback_password.getD ""))
        if has_fallback && (fb == .ok) then
          let store2 := (persist_onboarding_complete store1 true).2
          let store3 := (persist_hub_settings store2 uri0 url0).2
          { err := .ok,
            state := { factory_default := false, provisioning_started := false,
                       wifi_connected := true, ble_transport := false,
                       mqtt_uri := safe_copy 128 uri0, hub_url := safe_copy 128 url0 },
            store := store3 }
        else
          let st1 := { st0 with provisioning_started := true,
                                ble_transport := env.bt_enabled }
          if env.endpoint_create_err ≠ .ok then
            { err := env.endpoint_create_err, state := st1, store := store1 }
          else if env.prov_start_err ≠ .ok then
            { err := env.prov_start_err, state := st1, store := store1 }
          else if env.register_err ≠ .ok then
            { err := env.register_err, state := st1, store := store1 }
          else
            let cfg := hub_loop env.hub_msgs
                         { mqtt_uri := uri0, hub_url := url0, store := store1 }
            let store2 := (persist_onboarding_complete cfg.store true).2
            let store3 := (persist_hub_settings store2 cfg.mqtt_uri cfg.hub_url).2
            { err := .ok,
              state := { st1 with
                           wifi_connected := true,
                           mqtt_uri := safe_copy 128 cfg.mqtt_uri,
                           hub_url := safe_copy 128 cfg.hub_url },
              store := store3 }
      else
        let e1 := env.saved_connect
        let retry_fallback : Bool :=
          (e1 != .ok) && (match fallback_ssid, fallback_password with
                          | some s, some _ => s != ""
                          | _, _ => false)
        let e2 := if retry_fallback then
                    connect_with_fallback_credentials env fallback_ssid fallback_password
                  else e1
        if e2 ≠ .ok then
          { err := e2,
            state := { st0 with
                         wifi_connected := false,
                         mqtt_uri := safe_copy 128 uri0,
                         hub_url := safe_copy 128 url0 },
            store := store1 }
        else
          { err := .ok,
            state := { st0 with
                         wifi_connected := true,
                         mqtt_uri := safe_copy 128 uri0,
                         hub_url := safe_copy 128 url0 },
            store := store1 }

/-! ## Spec-side definitions used to state the claims

These definitions follow the claims' wording (not the C control flow);
the theorems below relate them to the source-derived functions. -/

/-- Hour read off positions 0-1, as the spec describes it. -/
def hhmm_spec_hour (s : String) : Nat :=
  ((s.data.getD 0 ' ').toNat - '0'.toNat) * 10 + ((s.data.getD 1 ' ').toNat - '0'.toNat)

/-- Minute read off positions 3-4, as the spec describes it. -/
def hhmm_spec_minute (s : String) : Nat :=
  ((s.data.getD 3 ' ').toNat - '0'.toNat) * 10 + ((s.data.getD 4 ' ').toNat - '0'.toNat)

/-- The claim's well-formedness condition on an `HH:MM` string, stated
from the spec's words: exactly 5 characters, digits at positions
0, 1, 3, 4, `:` at position 2, two-digit hour 0-23 and minute 0-59. -/
def hhmm_spec_wellformed (s : String) : Bool :=
  (s.length == 5) &&
  (s.data.getD 0 ' ').isDigit && (s.data.getD 1 ' ').isDigit &&
  (s.data.getD 2 ' ' == ':') &&
  (s.data.getD 3 ' ').isDigit && (s.data.getD 4 ' ').isDigit &&
  decide (hhmm_spec_hour s ≤ 23) && decide (hhmm_spec_minute s ≤ 59)

/-- A `deviceName` / `displayName` field that successfully parses
(string, non-empty, shorter than the 32-byte bound). -/
def device_name_parsed (root : Json) : Bool :=
  match device_name_item root with
  | some (.jstr s) => decide (0 < s.utf8ByteSize ∧ s.utf8ByteSize < 32)
  | _ => false

/-- A `sensorMode` field that successfully parses (recognized string). -/
def sensor_mode_parsed (root : Json) : Bool :=
  match jgetStr root "sensorMode" with
  | some s => (sensor_mode_of_string s).isSome
  | none => false

/-- A boolean `sensorsEnabled` field. -/
def sensors_enabled_parsed (root : Json) : Bool :=
  (jgetBool root "sensorsEnabled").isSome

/-- A well-formed `schedule` object. -/
def schedule_parsed (root : Json) : Bool :=
  (parse_schedule_config root).isSome

/-- Some identity/config field of the payload successfully parses. -/
def any_config_field_parsed (root : Json) : Bool :=
  device_name_parsed root || sensor_mode_parsed root ||
    sensors_enabled_parsed root || schedule_parsed root

/-- Agreement of two commands on the actuator flags and duration. -/
def same_act_fields (a b : MqttCommand) : Prop :=
  a.pump_on = b.pump_on ∧ a.fan_on = b.fan_on ∧ a.mister_on = b.mister_on ∧
    a.light_on = b.light_on ∧ a.duration_ms = b.duration_ms

/-- Agreement of two commands on the identity/config payload fields. -/
def same_config_fields (a b : MqttCommand) : Prop :=
  a.request_id = b.request_id ∧ a.device_name = b.device_name ∧
    a.has_sensor_mode = b.has_sensor_mode ∧ a.sensor_mode = b.sensor_mode ∧
    a.has_schedule = b.has_schedule ∧ a.schedule = b.schedule

/-- The keys of the payload that resolve actions and actuator
overrides, which claim C3 asserts are not inspected on a config update. -/
def actuator_read_keys : List String :=
  ["action", "command", "pump", "fan", "mister", "light", "duration_ms"]

/-- Concrete environment for the onboarding fixtures: every
collaborator call succeeds, the device has no provisioned credentials,
and the compiled-in fallback network accepts the connection. -/
def env_fallback_ok : OnboardEnv :=
  { bt_enabled := false, init_wifi_err := .ok, prov_init_err := .ok,
    is_provisioned_err := .ok, wifi_provisioned := false,
    fallback_connect := .ok, saved_connect := .fail,
    endpoint_create_err := .ok, prov_start_err := .ok, register_err := .ok,
    hub_msgs := [] }

/-! ## Claim C5: time-window activity semantics -/

/-- C5: for an enabled `TimeWindow` and a minute of day in 0..1439, the
window with `start < end` is active exactly on `[start, end)`; with
`start > end` exactly when `minute ≥ start` or `minute < end`; with
`start = end` at every minute; and a disabled window is never active. -/
theorem c5_window_active_semantics (t : NodeScheduleTimer) (m : Int)
    (hm0 : 0 ≤ m) (hm1 : m ≤ 1439) :
    (t.enabled = false → timer_is_active t m = false) ∧
    (t.enabled = true →
      (t.start_minute = t.end_minute → timer_is_active t m = true) ∧
      (t.start_minute < t.end_minute →
        (timer_is_active t m = true ↔ ((t.start_minute : Int) ≤ m ∧ m < (t.end_minute : Int)))) ∧
      (t.end_minute < t.start_minute →
        (timer_is_active t m = true ↔ ((t.start_minute : Int) ≤ m ∨ m < (t.end_minute : Int))))) := by
  have hclock : 0 ≤ m ∧ m ≤ 1439 := ⟨hm0, hm1⟩
  obtain ⟨en, sm, em⟩ := t
  refine ⟨fun he => ?_, fun he => ?_⟩
  · subst he; rfl
  · subst he
    refine ⟨fun hse => ?_, fun hlt => ?_, fun hgt => ?_⟩
    · have h' : sm = em := hse
      subst h'
      simp [timer_is_active]
    · have h1 : (sm : Int) ≠ (em : Int) := by exact_mod_cast Nat.ne_of_lt hlt
      have h2 : (sm : Int) < (em : Int) := by exact_mod_cast hlt
      simp [timer_is_active, h1, not_lt.mpr (le_of_lt h2), h2]
    · have h1 : (sm : Int) ≠ (em : Int) := by
        exact_mod_cast (Nat.ne_of_lt hgt).symm
      have h2 : ¬ ((sm : Int) < (em : Int)) := by
        exact_mod_cast not_lt.mpr (le_of_lt hgt)
      simp [timer_is_active, h1, h2]

/-- C5 witness: the enabled window 60-120 is active at minute 90. -/
theorem c5_witness :
    timer_is_active { enabled := true, start_minute := 60, end_minute := 120 } 90 = true := by
  have h := c5_window_active_semantics
    { enabled := true, start_minute := 60, end_minute := 120 } 90 (by decide) (by decide)
  exact ((h.2 rfl).2.1 (by decide)).mpr (by decide)

/-! ## Claim C7: rejection of out-of-range schedules -/

/-- C7: `node_schedule_set` returns an error and leaves the whole
engine state (live schedule, persisted store, actuators) untouched
whenever some window minute is ≥ 1440 or the timezone offset lies
outside [-720, 840]. -/
theorem c7_set_rejects_out_of_range (env : SchedEnv) (st : SchedState) (s : NodeSchedule)
    (h : 1440 ≤ s.light.start_minute ∨ 1440 ≤ s.light.end_minute ∨
         1440 ≤ s.pump.start_minute ∨ 1440 ≤ s.pump.end_minute ∨
         1440 ≤ s.mister.start_minute ∨ 1440 ≤ s.mister.end_minute ∨
         1440 ≤ s.fan.start_minute ∨ 1440 ≤ s.fan.end_minute ∨
         s.timezone_offset_minutes < -720 ∨ 840 < s.timezone_offset_minutes) :
    (node_schedule_set env st s).1 ≠ .ok ∧ (node_schedule_set env st s).2 = st := by
  have hv : is_valid_schedule s = false := by
    rcases Bool.eq_false_or_eq_true (is_valid_schedule s) with hv | hv
    · exfalso
      unfold is_valid_schedule is_valid_timer at hv
      simp only [Bool.and_eq_true, decide_eq_true_eq] at hv
      rcases h with h|h|h|h|h|h|h|h|h|h <;> omega
    · exact hv
  unfold node_schedule_set
  by_cases hi : st.initialized <;> simp [hi, hv]

/-- C7 witness: a concrete out-of-range schedule (`start_minute = 1440`)
is rejected by an initialized engine with no state change. -/
theorem c7_witness :
    (node_schedule_set { time_valid := true, now_sec := 0 }
        { initialized := true, schedule := node_schedule_defaults,
          store := NvsStore.empty,
          actuators := { light_on := false, pump_on := false,
                         mister_on := false, fan_on := false },
          last_applied_minute := -1 }
        { node_schedule_defaults with
            light := { enabled := true, start_minute := 1440, end_minute := 60 } }).1
      ≠ EspErr.ok ∧
    (node_schedule_set { time_valid := true, now_sec := 0 }
        { initialized := true, schedule := node_schedule_defaults,
          store := NvsStore.empty,
          actuators := { light_on := false, pump_on := false,
                         mister_on := false, fan_on := false },
          last_applied_minute := -1 }
        { node_schedule_defaults with
            light := { enabled := true, start_minute := 1440, end_minute := 60 } }).2
      = { initialized := true, schedule := node_schedule_defaults,
          store := NvsStore.empty,
          actuators := { light_on := false, pump_on := false,
                         mister_on := false, fan_on := false },
          last_applied_minute := -1 } :=
  c7_set_rejects_out_of_range _ _ _ (Or.inl (by decide))

/-! ## Byte-truncation helper lemmas -/

/-- A character list whose UTF-8 size fits the budget is kept whole. -/
theorem takeBytes_of_fits (l : List Char) :
    ∀ budget, String.utf8Len l ≤ budget → takeBytes budget l = l := by
  induction l with
  | nil => intro budget _; rfl
  | cons c cs ih =>
    intro budget h
    simp only [String.utf8Len_cons] at h
    have hc : c.utf8Size ≤ budget := by omega
    unfold takeBytes
    rw [if_pos hc, ih (budget - c.utf8Size) (by omega)]

/-- The byte-bounded copy never exceeds its budget. -/
theorem utf8Len_takeBytes_le (l : List Char) :
    ∀ budget, String.utf8Len (takeBytes budget l) ≤ budget := by
  induction l with
  | nil => intro budget; simp [takeBytes]
  | cons c cs ih =>
    intro budget
    unfold takeBytes
    by_cases hc : c.utf8Size ≤ budget
    · rw [if_pos hc]
      simp only [String.utf8Len_cons]
      have := ih (budget - c.utf8Size)
      omega
    · rw [if_neg hc]; simp

/-- A default value that fits the buffer is copied whole. -/
theorem copy_default_str_of_fits (cap : Nat) (d : String) (h : d.utf8ByteSize + 1 ≤ cap) :
    copy_default_str cap d = d := by
  obtain ⟨l⟩ := d
  simp only [String.utf8ByteSize_mk] at h
  unfold copy_default_str
  rw [takeBytes_of_fits l (cap - 1) (by omega)]

/-- A value that fits the buffer is copied whole by `safe_copy`. -/
theorem safe_copy_of_fits (cap : Nat) (v : String) (h : v.utf8ByteSize + 1 ≤ cap) :
    safe_copy cap v = v := by
  obtain ⟨l⟩ := v
  simp only [String.utf8ByteSize_mk] at h
  unfold safe_copy
  rw [takeBytes_of_fits l (cap - 1) (by omega)]

/-- `safe_copy` never exceeds its buffer. -/
theorem safe_copy_utf8ByteSize_le (cap : Nat) (v : String) :
    (safe_copy cap v).utf8ByteSize ≤ cap - 1 := by
  unfold safe_copy
  simpa using utf8Len_takeBytes_le v.data (cap - 1)

/-! ## Claim C2: "key not found" handling in the preference getters -/

/-- C2 counterexample: with the namespace present and the key absent,
`prefs_get_u8` does not return a result distinguishable from success;
it returns `ESP_OK` with the default already applied by the getter
itself, refuting the claim that the caller receives "key not found" as
an outcome distinct from success and decides to apply the default. -/
theorem c2_counterexample :
    nvsFind { namespaces := ["device"], entries := [] } "device" "sensor_mode" = none ∧
    prefs_get_u8 { namespaces := ["device"], entries := [] } "device" "sensor_mode" 0 7 =
      (EspErr.ok, 7) := by decide

/-- C2 (amended): a key-level "not found" is absorbed inside every typed
getter, which applies the caller-supplied default itself and returns
success; only a namespace-level "not found" (the namespace was never
written) reaches the caller, as `ESP_ERR_NVS_NOT_FOUND` — an outcome
distinct from success which the out-parameter leaves untouched, and
which callers classify as missing via `is_pref_missing` to keep their
own defaults. -/
theorem c2_amended_not_found_handling (store : NvsStore) (ns key : String) (hns : ns ≠ "") :
    (ns ∈ store.namespaces → nvsFind store ns key = none →
      (∀ out0 d, prefs_get_u8 store ns key out0 d = (.ok, d)) ∧
      (∀ out0 d, prefs_get_u32 store ns key out0 d = (.ok, d)) ∧
      (∀ out0 d, prefs_get_i32 store ns key out0 d = (.ok, d)) ∧
      (∀ out0 d, prefs_get_bool store ns key out0 d = (.ok, d)) ∧
      (∀ out0 cap d, 1 ≤ cap →
        prefs_get_str store ns key out0 cap d = (.ok, copy_default_str cap d)) ∧
      (∀ cap d, d.utf8ByteSize + 1 ≤ cap → copy_default_str cap d = d)) ∧
    (ns ∉ store.namespaces →
      (∀ out0 d, prefs_get_u8 store ns key out0 d = (.errNvsNotFound, out0)) ∧
      (∀ out0 d, prefs_get_u32 store ns key out0 d = (.errNvsNotFound, out0)) ∧
      (∀ out0 d, prefs_get_i32 store ns key out0 d = (.errNvsNotFound, out0)) ∧
      (∀ out0 d, prefs_get_bool store ns key out0 d = (.errNvsNotFound, out0)) ∧
      (∀ out0 cap d, 1 ≤ cap →
        prefs_get_str store ns key out0 cap d = (.errNvsNotFound, out0)) ∧
      is_pref_missing .errNvsNotFound = true) := by
  have hres : resolve_namespace ns = ns := by simp [resolve_namespace, hns]
  constructor
  · intro hmem hfind
    refine ⟨?_, ?_, ?_, ?_, ?_, ?_⟩
    · intro out0 d
      unfold prefs_get_u8 nvs_get_u8
      rw [hres, if_pos hmem, hfind]
    · intro out0 d
      unfold prefs_get_u32 nvs_get_u32
      rw [hres, if_pos hmem, hfind]
    · intro out0 d
      unfold prefs_get_i32 nvs_get_i32
      rw [hres, if_pos hmem, hfind]
    · intro out0 d
      unfold prefs_get_bool prefs_get_u8 nvs_get_u8
      rw [hres]
      simp only [hmem, if_true, hfind]
      cases d <;> simp
    · intro out0 cap d hcap
      unfold prefs_get_str nvs_get_str
      rw [if_neg (by omega), hres, if_pos hmem, hfind]
    · intro cap d hfit
      exact copy_default_str_of_fits cap d hfit
  · intro hmem
    refine ⟨?_, ?_, ?_, ?_, ?_, rfl⟩
    · intro out0 d
      unfold prefs_get_u8
      rw [hres, if_neg hmem]
    · intro out0 d
      unfold prefs_get_u32
      rw [hres, if_neg hmem]
    · intro out0 d
      unfold prefs_get_i32
      rw [hres, if_neg hmem]
    · intro out0 d
      unfold prefs_get_bool prefs_get_u8
      rw [hres]
      simp [hmem]
    · intro out0 cap d hcap
      unfold prefs_get_str
      rw [if_neg (by omega), hres, if_neg hmem]

/-- C2 witness: a concrete store with the namespace present and the key
absent yields success with the default applied by the getter, and a
store without the namespace yields `ESP_ERR_NVS_NOT_FOUND` with the out
value untouched. -/
theorem c2_witness :
    prefs_get_u8 { namespaces := ["schedule"], entries := [] } "schedule" "l_en" 3 9 =
      (EspErr.ok, 9) ∧
    prefs_get_u8 NvsStore.empty "schedule" "l_en" 3 9 = (EspErr.errNvsNotFound, 3) := by
  have h1 := c2_amended_not_found_handling
    { namespaces := ["schedule"], entries := [] } "schedule" "l_en" (by decide)
  have h2 := c2_amended_not_found_handling NvsStore.empty "schedule" "l_en" (by decide)
  exact ⟨(h1.1 (by decide) (by decide)).1 3 9, (h2.2 (by decide)).1 3 9⟩

/-! ## Claim C6: HH:MM parsing -/

/-- Bridging lemma: `Char.isDigit` is the byte-range check the C code
performs. -/
theorem isDigit_eq (c : Char) : c.isDigit = ('0' ≤ c && c ≤ '9') := by
  simp [Char.isDigit, Char.le_def]

/-- C6: `node_schedule_parse_hhmm` succeeds exactly on the spec's
well-formed strings, returning hour*60+minute, and behaves as the spec
requires on the five example inputs. -/
theorem c6_parse_hhmm_characterization :
    (∀ s : String,
      node_schedule_parse_hhmm s =
        if hhmm_spec_wellformed s then some (hhmm_spec_hour s * 60 + hhmm_spec_minute s)
        else none) ∧
    node_schedule_parse_hhmm "24:00" = none ∧
    node_schedule_parse_hhmm "12:60" = none ∧
    node_schedule_parse_hhmm "1:00" = none ∧
    node_schedule_parse_hhmm "00:00" = some 0 ∧
    node_schedule_parse_hhmm "23:59" = some 1439 := by
  refine ⟨?_, by decide, by decide, by decide, by decide, by decide⟩
  intro s
  obtain ⟨l⟩ := s
  rcases l with _ | ⟨c0, _ | ⟨c1, _ | ⟨c2, _ | ⟨c3, _ | ⟨c4, _ | ⟨c5, rest⟩⟩⟩⟩⟩⟩
  · simp [node_schedule_parse_hhmm, hhmm_spec_wellformed, String.length]
  · simp [node_schedule_parse_hhmm, hhmm_spec_wellformed, String.length]
  · simp [node_schedule_parse_hhmm, hhmm_spec_wellformed, String.length]
  · simp [node_schedule_parse_hhmm, hhmm_spec_wellformed, String.length]
  · simp [node_schedule_parse_hhmm, hhmm_spec_wellformed, String.length]
  · -- exactly five characters
    simp only [node_schedule_parse_hhmm, hhmm_spec_wellformed, hhmm_spec_hour,
      hhmm_spec_minute, String.length, List.length_cons, List.length_nil, List.getD,
      List.get?, isDigit_eq, Option.getD_some]
    by_cases hcolon : c2 = ':'
    · subst hcolon
      by_cases hd : ('0' ≤ c0 ∧ c0 ≤ '9') ∧ ('0' ≤ c1 ∧ c1 ≤ '9') ∧
          ('0' ≤ c3 ∧ c3 ≤ '9') ∧ ('0' ≤ c4 ∧ c4 ≤ '9')
      · by_cases hr : ((c0.toNat - '0'.toNat) * 10 + (c1.toNat - '0'.toNat) ≤ 23) ∧
            ((c3.toNat - '0'.toNat) * 10 + (c4.toNat - '0'.toNat) ≤ 59)
        · rw [if_pos hd, if_pos hr]
          obtain ⟨⟨h00, h09⟩, ⟨h10, h19⟩, ⟨h30, h39⟩, ⟨h40, h49⟩⟩ := hd
          simp only [show '0'.toNat = 48 from rfl] at hr
          simp [h00, h09, h10, h19, h30, h39, h40, h49, hr.1, hr.2]
        · rw [if_pos hd, if_neg hr]
          obtain ⟨⟨h00, h09⟩, ⟨h10, h19⟩, ⟨h30, h39⟩, ⟨h40, h49⟩⟩ := hd
          rcases not_and_or.mp hr with hr' | hr' <;>
          · simp only [show '0'.toNat = 48 from rfl] at hr'
            simp [h00, h09, h10, h19, h30, h39, h40, h49, hr']
      · rw [if_neg hd]
        have hcase : ¬ ('0' ≤ c0 ∧ c0 ≤ '9') ∨ ¬ ('0' ≤ c1 ∧ c1 ≤ '9') ∨
            ¬ ('0' ≤ c3 ∧ c3 ≤ '9') ∨ ¬ ('0' ≤ c4 ∧ c4 ≤ '9') := by tauto
        rcases hcase with h | h | h | h <;>
          rcases not_and_or.mp h with h' | h' <;> simp [h']
    · rw [if_neg hcolon]
      simp [hcolon]
  · -- six or more characters
    have hlen : ¬ (rest.length + 1 + 1 + 1 + 1 + 1 + 1 = 5) := by omega
    simp [node_schedule_parse_hhmm, hhmm_spec_wellformed, String.length, hlen]

/-! ## Parser structural lemmas -/

/-- The requestId block touches only the `request_id` field. -/
theorem apply_request_id_shape (root : Json) (cmd : MqttCommand) :
    apply_request_id root cmd =
      { cmd with request_id := (apply_request_id root cmd).request_id } := by
  unfold apply_request_id
  (repeat' split) <;> rfl

/-- The deviceName block touches only `device_name` and `type`. -/
theorem apply_device_name_shape (root : Json) (cmd : MqttCommand) :
    apply_device_name root cmd =
      { cmd with device_name := (apply_device_name root cmd).device_name,
                 type := (apply_device_name root cmd).type } := by
  unfold apply_device_name
  (repeat' split) <;> rfl

/-- The sensorMode block touches only the sensor-mode fields and `type`. -/
theorem apply_sensor_mode_shape (root : Json) (cmd : MqttCommand) :
    apply_sensor_mode root cmd =
      { cmd with sensor_mode := (apply_sensor_mode root cmd).sensor_mode,
                 has_sensor_mode := (apply_sensor_mode root cmd).has_sensor_mode,
                 type := (apply_sensor_mode root cmd).type } := by
  unfold apply_sensor_mode
  (repeat' split) <;> rfl

/-- The sensorsEnabled block touches only the sensor-mode fields and `type`. -/
theorem apply_sensors_enabled_shape (root : Json) (cmd : MqttCommand) :
    apply_sensors_enabled root cmd =
      { cmd with sensor_mode := (apply_sensors_enabled root cmd).sensor_mode,
                 has_sensor_mode := (apply_sensors_enabled root cmd).has_sensor_mode,
                 type := (apply_sensors_enabled root cmd).type } := by
  unfold apply_sensors_enabled
  (repeat' split) <;> rfl

/-- The schedule block touches only the schedule fields and `type`. -/
theorem apply_schedule_shape (root : Json) (cmd : MqttCommand) :
    apply_schedule root cmd =
      { cmd with schedule := (apply_schedule root cmd).schedule,
                 has_schedule := (apply_schedule root cmd).has_schedule,
                 type := (apply_schedule root cmd).type } := by
  unfold apply_schedule
  (repeat' split) <;> rfl

/-- The action block touches only `type`. -/
theorem apply_action_shape (root : Json) (cmd : MqttCommand) :
    apply_action root cmd = { cmd with type := (apply_action root cmd).type } := by
  unfold apply_action
  (repeat' split) <;> rfl

/-- The actuator cascade touches only `type`, the four flags and the
duration. -/
theorem apply_actuators_shape (root : Json) (cmd : MqttCommand) :
    apply_actuators root cmd =
      { cmd with type := (apply_actuators root cmd).type,
                 pump_on := (apply_actuators root cmd).pump_on,
                 fan_on := (apply_actuators root cmd).fan_on,
                 mister_on := (apply_actuators root cmd).mister_on,
                 light_on := (apply_actuators root cmd).light_on,
                 duration_ms := (apply_actuators root cmd).duration_ms } := by
  unfold apply_actuators
  (repeat' split) <;> rfl

/-- The requestId block never changes the command type. -/
theorem apply_request_id_type (root : Json) (cmd : MqttCommand) :
    (apply_request_id root cmd).type = cmd.type := by
  rw [apply_request_id_shape]

/-- Type outcome of the deviceName block. -/
theorem apply_device_name_type (root : Json) (cmd : MqttCommand) :
    (apply_device_name root cmd).type =
      if device_name_parsed root then .configUpdate else cmd.type := by
  unfold apply_device_name device_name_parsed
  cases hitem : device_name_item root with
  | none => simp
  | some v =>
    cases v with
    | jstr s =>
      by_cases hc : 0 < s.utf8ByteSize ∧ s.utf8ByteSize < 32
      · simp [hc]
      · simp [hc]
    | jnull => simp
    | jbool b => simp
    | jnum n => simp
    | jarr elems => simp
    | jobj fields => simp

/-- Type outcome of the sensorMode block. -/
theorem apply_sensor_mode_type (root : Json) (cmd : MqttCommand) :
    (apply_sensor_mode root cmd).type =
      if sensor_mode_parsed root then .configUpdate else cmd.type := by
  unfold apply_sensor_mode sensor_mode_parsed
  cases hs : jgetStr root "sensorMode" with
  | none => simp
  | some s => cases hm : sensor_mode_of_string s <;> simp [hm]

/-- Type outcome of the sensorsEnabled block. -/
theorem apply_sensors_enabled_type (root : Json) (cmd : MqttCommand) :
    (apply_sensors_enabled root cmd).type =
      if sensors_enabled_parsed root then .configUpdate else cmd.type := by
  unfold apply_sensors_enabled sensors_enabled_parsed
  cases hb : jgetBool root "sensorsEnabled" <;> simp

/-- Type outcome of the schedule block. -/
theorem apply_schedule_type (root : Json) (cmd : MqttCommand) :
    (apply_schedule root cmd).type =
      if schedule_parsed root then .configUpdate else cmd.type := by
  unfold apply_schedule schedule_parsed
  cases hp : parse_schedule_config root <;> simp

/-- The config phase resolves `ConfigUpdate` exactly when some
identity/config field parsed. -/
theorem config_phase_type (root : Json) :
    (config_phase root).type =
      if any_config_field_parsed root then .configUpdate else .unknown := by
  unfold config_phase any_config_field_parsed
  rw [apply_schedule_type, apply_sensors_enabled_type, apply_sensor_mode_type,
    apply_device_name_type, apply_request_id_type]
  by_cases h1 : device_name_parsed root <;> by_cases h2 : sensor_mode_parsed root <;>
    by_cases h3 : sensors_enabled_parsed root <;> by_cases h4 : schedule_parsed root <;>
      simp [h1, h2, h3, h4, mqtt_cmd_default]

/-- The config phase leaves the actuator flags and duration at their
defaults. -/
theorem config_phase_act_fields (root : Json) :
    same_act_fields (config_phase root) mqtt_cmd_default := by
  unfold config_phase same_act_fields
  rw [apply_schedule_shape, apply_sensors_enabled_shape, apply_sensor_mode_shape,
    apply_device_name_shape, apply_request_id_shape]
  simp

/-- Early return on a resolved config update. -/
theorem mqtt_parse_eq_config (root : Json) (h : (config_phase root).type = .configUpdate) :
    mqtt_parse_command (some root) = config_phase root := by
  unfold mqtt_parse_command
  simp [h]

/-- Fall-through to the action / actuator phase otherwise. -/
theorem mqtt_parse_eq_actuator (root : Json)
    (h : (config_phase root).type ≠ .configUpdate) :
    mqtt_parse_command (some root) =
      apply_actuators root (apply_action root (config_phase root)) := by
  unfold mqtt_parse_command
  simp [h]

/-! ## Lookup / congruence lemmas for dropped keys -/

/-- Dropping other keys does not change `find?` for a kept key. -/
theorem find?_filter_keys (fields : List (String × Json)) (ks : List String) (k : String)
    (hk : ks.contains k = false) :
    (fields.filter (fun kv => !(ks.contains kv.1))).find? (fun kv => kv.1 == k) =
      fields.find? (fun kv => kv.1 == k) := by
  have hk' : k ∉ ks := by simpa using hk
  induction fields with
  | nil => rfl
  | cons kv rest ih =>
    rw [List.filter_cons]
    by_cases hkv : kv.1 = k
    · have hcon : kv.1 ∉ ks := by rw [hkv]; exact hk'
      rw [if_pos (by simpa using hcon), List.find?_cons_of_pos _ (by simp [hkv]),
        List.find?_cons_of_pos _ (by simp [hkv])]
    · by_cases hmem : kv.1 ∈ ks
      · rw [if_neg (by simpa using hmem), ih, List.find?_cons_of_neg _ (by simp [hkv])]
      · rw [if_pos (by simpa using hmem), List.find?_cons_of_neg _ (by simp [hkv]),
          List.find?_cons_of_neg _ (by simp [hkv]), ih]

/-- `find?` over the filtered fields is `none` for a dropped key. -/
theorem find?_filter_keys_dropped (fields : List (String × Json)) (ks : List String)
    (k : String) (hk : ks.contains k = true) :
    (fields.filter (fun kv => !(ks.contains kv.1))).find? (fun kv => kv.1 == k) = none := by
  have hk' : k ∈ ks := by simpa using hk
  induction fields with
  | nil => rfl
  | cons kv rest ih =>
    rw [List.filter_cons]
    by_cases hmem : kv.1 ∈ ks
    · rw [if_neg (by simpa using hmem), ih]
    · have hkv : ¬ (kv.1 = k) := fun h => hmem (h ▸ hk')
      rw [if_pos (by simpa using hmem), List.find?_cons_of_neg _ (by simp [hkv]), ih]

/-- `jget` is unchanged for a key outside the dropped set. -/
theorem jget_jdrop_not_mem (root : Json) (ks : List String) (k : String)
    (hk : ks.contains k = false) :
    jget (jdrop root ks) k = jget root k := by
  cases root with
  | jobj fields =>
    unfold jget jdrop
    dsimp only
    rw [find?_filter_keys fields ks k hk]
  | jnull => rfl
  | jbool b => rfl
  | jnum n => rfl
  | jstr s => rfl
  | jarr elems => rfl

/-- `jget` of a dropped key is `none`. -/
theorem jget_jdrop_mem (root : Json) (ks : List String) (k : String)
    (hk : ks.contains k = true) :
    jget (jdrop root ks) k = none := by
  cases root with
  | jobj fields =>
    unfold jget jdrop
    dsimp only
    rw [find?_filter_keys_dropped fields ks k hk]
    rfl
  | jnull => rfl
  | jbool b => rfl
  | jnum n => rfl
  | jstr s => rfl
  | jarr elems => rfl

/-- Each parse block depends on the payload only through its own keys. -/
theorem apply_request_id_congr {r1 r2 : Json}
    (h : jget r1 "requestId" = jget r2 "requestId") (cmd : MqttCommand) :
    apply_request_id r1 cmd = apply_request_id r2 cmd := by
  unfold apply_request_id jgetStr
  rw [h]

/-- Congruence for the deviceName lookup with its fallback. -/
theorem device_name_item_congr {r1 r2 : Json}
    (h1 : jget r1 "deviceName" = jget r2 "deviceName")
    (h2 : jget r1 "displayName" = jget r2 "displayName") :
    device_name_item r1 = device_name_item r2 := by
  unfold device_name_item
  rw [h1, h2]

/-- Congruence for the deviceName block. -/
theorem apply_device_name_congr {r1 r2 : Json}
    (h1 : jget r1 "deviceName" = jget r2 "deviceName")
    (h2 : jget r1 "displayName" = jget r2 "displayName") (cmd : MqttCommand) :
    apply_device_name r1 cmd = apply_device_name r2 cmd := by
  unfold apply_device_name
  rw [device_name_item_congr h1 h2]

/-- Congruence for the sensorMode block. -/
theorem apply_sensor_mode_congr {r1 r2 : Json}
    (h : jget r1 "sensorMode" = jget r2 "sensorMode") (cmd : MqttCommand) :
    apply_sensor_mode r1 cmd = apply_sensor_mode r2 cmd := by
  unfold apply_sensor_mode jgetStr
  rw [h]

/-- Congruence for the sensorsEnabled block. -/
theorem apply_sensors_enabled_congr {r1 r2 : Json}
    (h : jget r1 "sensorsEnabled" = jget r2 "sensorsEnabled") (cmd : MqttCommand) :
    apply_sensors_enabled r1 cmd = apply_sensors_enabled r2 cmd := by
  unfold apply_sensors_enabled jgetBool
  rw [h]

/-- Congruence for the timezone-offset resolution. -/
theorem schedule_tz_value_congr {r1 r2 : Json}
    (h : jget r1 "tzOffsetMinutes" = jget r2 "tzOffsetMinutes") (sobj : Json) :
    schedule_tz_value r1 sobj = schedule_tz_value r2 sobj := by
  unfold schedule_tz_value schedule_tz_item
  rw [h]

/-- Congruence for the schedule parser. -/
theorem parse_schedule_config_congr {r1 r2 : Json}
    (h1 : jget r1 "schedule" = jget r2 "schedule")
    (h2 : jget r1 "tzOffsetMinutes" = jget r2 "tzOffsetMinutes") :
    parse_schedule_config r1 = parse_schedule_config r2 := by
  unfold parse_schedule_config
  rw [h1]
  simp only [schedule_tz_value_congr h2]

/-- Congruence for the schedule block. -/
theorem apply_schedule_congr {r1 r2 : Json}
    (h1 : jget r1 "schedule" = jget r2 "schedule")
    (h2 : jget r1 "tzOffsetMinutes" = jget r2 "tzOffsetMinutes") (cmd : MqttCommand) :
    apply_schedule r1 cmd = apply_schedule r2 cmd := by
  unfold apply_schedule
  rw [parse_schedule_config_congr h1 h2]

/-- Congruence for the action block. -/
theorem apply_action_congr {r1 r2 : Json}
    (h1 : jget r1 "action" = jget r2 "action")
    (h2 : jget r1 "command" = jget r2 "command") (cmd : MqttCommand) :
    apply_action r1 cmd = apply_action r2 cmd := by
  unfold apply_action action_value jgetStr
  rw [h1, h2]

/-- Congruence for the actuator cascade. -/
theorem apply_actuators_congr {r1 r2 : Json}
    (hp : jget r1 "pump" = jget r2 "pump")
    (hf : jget r1 "fan" = jget r2 "fan")
    (hm : jget r1 "mister" = jget r2 "mister")
    (hl : jget r1 "light" = jget r2 "light")
    (hd : jget r1 "duration_ms" = jget r2 "duration_ms") (cmd : MqttCommand) :
    apply_actuators r1 cmd = apply_actuators r2 cmd := by
  unfold apply_actuators get_duration
  rw [hp, hf, hm, hl, hd]

/-- Congruence for the whole config phase. -/
theorem config_phase_congr {r1 r2 : Json}
    (hreq : jget r1 "requestId" = jget r2 "requestId")
    (hdev : jget r1 "deviceName" = jget r2 "deviceName")
    (hdis : jget r1 "displayName" = jget r2 "displayName")
    (hsm : jget r1 "sensorMode" = jget r2 "sensorMode")
    (hse : jget r1 "sensorsEnabled" = jget r2 "sensorsEnabled")
    (hsch : jget r1 "schedule" = jget r2 "schedule")
    (htz : jget r1 "tzOffsetMinutes" = jget r2 "tzOffsetMinutes") :
    config_phase r1 = config_phase r2 := by
  unfold config_phase
  rw [apply_request_id_congr hreq, apply_device_name_congr hdev hdis,
    apply_sensor_mode_congr hsm, apply_sensors_enabled_congr hse,
    apply_schedule_congr hsch htz]

/-- Dropping the action / actuator keys leaves the config phase intact. -/
theorem config_phase_jdrop_actuator_keys (root : Json) :
    config_phase (jdrop root actuator_read_keys) = config_phase root :=
  config_phase_congr
    (jget_jdrop_not_mem root _ _ (by decide)) (jget_jdrop_not_mem root _ _ (by decide))
    (jget_jdrop_not_mem root _ _ (by decide)) (jget_jdrop_not_mem root _ _ (by decide))
    (jget_jdrop_not_mem root _ _ (by decide)) (jget_jdrop_not_mem root _ _ (by decide))
    (jget_jdrop_not_mem root _ _ (by decide))

/-! ## requestId isolation lemmas -/

/-- The deviceName block commutes with presetting `request_id`. -/
theorem apply_device_name_reqid (root : Json) (cmd : MqttCommand) (r : String) :
    apply_device_name root { cmd with request_id := r } =
      { apply_device_name root cmd with request_id := r } := by
  unfold apply_device_name
  (repeat' split) <;> rfl

/-- The sensorMode block commutes with presetting `request_id`. -/
theorem apply_sensor_mode_reqid (root : Json) (cmd : MqttCommand) (r : String) :
    apply_sensor_mode root { cmd with request_id := r } =
      { apply_sensor_mode root cmd with request_id := r } := by
  unfold apply_sensor_mode
  (repeat' split) <;> rfl

/-- The sensorsEnabled block commutes with presetting `request_id`. -/
theorem apply_sensors_enabled_reqid (root : Json) (cmd : MqttCommand) (r : String) :
    apply_sensors_enabled root { cmd with request_id := r } =
      { apply_sensors_enabled root cmd with request_id := r } := by
  unfold apply_sensors_enabled
  (repeat' split) <;> rfl

/-- The schedule block commutes with presetting `request_id`. -/
theorem apply_schedule_reqid (root : Json) (cmd : MqttCommand) (r : String) :
    apply_schedule root { cmd with request_id := r } =
      { apply_schedule root cmd with request_id := r } := by
  unfold apply_schedule
  (repeat' split) <;> rfl

/-- The action block commutes with presetting `request_id`. -/
theorem apply_action_reqid (root : Json) (cmd : MqttCommand) (r : String) :
    apply_action root { cmd with request_id := r } =
      { apply_action root cmd with request_id := r } := by
  unfold apply_action
  (repeat' split) <;> rfl

/-- The actuator cascade commutes with presetting `request_id`. -/
theorem apply_actuators_reqid (root : Json) (cmd : MqttCommand) (r : String) :
    apply_actuators root { cmd with request_id := r } =
      { apply_actuators root cmd with request_id := r } := by
  unfold apply_actuators
  (repeat' split) <;> rfl

/-- Blocks other than the requestId block preserve `request_id`. -/
theorem apply_device_name_request_id (root : Json) (cmd : MqttCommand) :
    (apply_device_name root cmd).request_id = cmd.request_id := by
  rw [apply_device_name_shape]

/-- The sensorMode block preserves `request_id`. -/
theorem apply_sensor_mode_request_id (root : Json) (cmd : MqttCommand) :
    (apply_sensor_mode root cmd).request_id = cmd.request_id := by
  rw [apply_sensor_mode_shape]

/-- The sensorsEnabled block preserves `request_id`. -/
theorem apply_sensors_enabled_request_id (root : Json) (cmd : MqttCommand) :
    (apply_sensors_enabled root cmd).request_id = cmd.request_id := by
  rw [apply_sensors_enabled_shape]

/-- The schedule block preserves `request_id`. -/
theorem apply_schedule_request_id (root : Json) (cmd : MqttCommand) :
    (apply_schedule root cmd).request_id = cmd.request_id := by
  rw [apply_schedule_shape]

/-- The action block preserves `request_id`. -/
theorem apply_action_request_id (root : Json) (cmd : MqttCommand) :
    (apply_action root cmd).request_id = cmd.request_id := by
  rw [apply_action_shape]

/-- The actuator cascade preserves `request_id`. -/
theorem apply_actuators_request_id (root : Json) (cmd : MqttCommand) :
    (apply_actuators root cmd).request_id = cmd.request_id := by
  rw [apply_actuators_shape]

/-- The config phase's `request_id` is exactly what the requestId block
chose. -/
theorem config_phase_request_id (root : Json) :
    (config_phase root).request_id = (apply_request_id root mqtt_cmd_default).request_id := by
  unfold config_phase
  rw [apply_schedule_request_id, apply_sensors_enabled_request_id,
    apply_sensor_mode_request_id, apply_device_name_request_id]

/-- With `requestId` dropped from the payload, the requestId block is
the identity. -/
theorem apply_request_id_jdrop (root : Json) (cmd : MqttCommand) :
    apply_request_id (jdrop root ["requestId"]) cmd = cmd := by
  unfold apply_request_id jgetStr
  rw [jget_jdrop_mem root _ "requestId" (by decide)]

/-- The config phase on the payload without `requestId` yields the same
command with `request_id` empty. -/
theorem config_phase_reqid (root : Json) :
    config_phase root =
      { config_phase (jdrop root ["requestId"]) with
          request_id := (apply_request_id root mqtt_cmd_default).request_id } := by
  unfold config_phase
  rw [apply_request_id_jdrop,
    apply_device_name_congr (jget_jdrop_not_mem root _ _ (by decide))
      (jget_jdrop_not_mem root _ _ (by decide)),
    apply_sensor_mode_congr (jget_jdrop_not_mem root _ _ (by decide)),
    apply_sensors_enabled_congr (jget_jdrop_not_mem root _ _ (by decide)),
    apply_schedule_congr (jget_jdrop_not_mem root _ _ (by decide))
      (jget_jdrop_not_mem root _ _ (by decide)),
    apply_request_id_shape root mqtt_cmd_default,
    apply_device_name_reqid, apply_sensor_mode_reqid, apply_sensors_enabled_reqid,
    apply_schedule_reqid]

/-- Dropping `requestId` from the payload yields the same parsed
command with an empty `request_id`. -/
theorem parse_drop_request_id (root : Json) :
    mqtt_parse_command (some (jdrop root ["requestId"])) =
      { mqtt_parse_command (some root) with request_id := "" } := by
  have hcp := config_phase_reqid root
  have hdropid : (config_phase (jdrop root ["requestId"])).request_id = "" := by
    rw [config_phase_request_id, apply_request_id_jdrop]
    rfl
  have htype : (config_phase root).type = (config_phase (jdrop root ["requestId"])).type := by
    rw [hcp]
  by_cases h : (config_phase (jdrop root ["requestId"])).type = .configUpdate
  · rw [mqtt_parse_eq_config _ h, mqtt_parse_eq_config root (htype.trans h), hcp]
    conv_rhs => rw [← hdropid]
  · have hD : mqtt_parse_command (some (jdrop root ["requestId"])) =
        apply_actuators root (apply_action root (config_phase (jdrop root ["requestId"]))) := by
      rw [mqtt_parse_eq_actuator _ h,
        apply_action_congr (jget_jdrop_not_mem root _ "action" (by decide))
          (jget_jdrop_not_mem root _ "command" (by decide)),
        apply_actuators_congr (jget_jdrop_not_mem root _ "pump" (by decide))
          (jget_jdrop_not_mem root _ "fan" (by decide))
          (jget_jdrop_not_mem root _ "mister" (by decide))
          (jget_jdrop_not_mem root _ "light" (by decide))
          (jget_jdrop_not_mem root _ "duration_ms" (by decide))]
    have hR : mqtt_parse_command (some root) =
        { apply_actuators root (apply_action root (config_phase (jdrop root ["requestId"])))
            with request_id := (apply_request_id root mqtt_cmd_default).request_id } := by
      rw [mqtt_parse_eq_actuator root (fun hc => h (htype.symm.trans hc)), hcp,
        apply_action_reqid, apply_actuators_reqid]
    have hact : (apply_actuators root
        (apply_action root (config_phase (jdrop root ["requestId"])))).request_id = "" := by
      rw [apply_actuators_request_id, apply_action_request_id, hdropid]
    rw [hD, hR]
    conv_rhs => rw [← hact]

/-! ## Schedule-validity lemmas -/

/-- A successfully parsed `HH:MM` value is below 1440. -/
theorem parse_hhmm_lt (s : String) (n : Nat)
    (h : node_schedule_parse_hhmm s = some n) : n < 1440 := by
  unfold node_schedule_parse_hhmm at h
  split at h
  · split at h
    · split at h
      · dsimp only at h
        split at h
        · rename_i hrange
          injection h with hn
          omega
        · exact absurd h (by simp)
      · exact absurd h (by simp)
    · exact absurd h (by simp)
  · exact absurd h (by simp)

/-- A successfully parsed timer is range-valid. -/
theorem parse_schedule_timer_valid (sobj : Json) (nm : String) (t : NodeScheduleTimer)
    (h : parse_schedule_timer sobj nm = some t) : is_valid_timer t = true := by
  unfold parse_schedule_timer at h
  split at h
  · split at h
    · split at h
      · split at h
        · rename_i hsm hem
          injection h with ht
          have h1 := parse_hhmm_lt _ _ hsm
          have h2 := parse_hhmm_lt _ _ hem
          rw [← ht]
          simp only [is_valid_timer, Bool.and_eq_true, decide_eq_true_eq]
          omega
        · exact absurd h (by simp)
      · exact absurd h (by simp)
    · exact absurd h (by simp)
  · exact absurd h (by simp)

/-- The resolved timezone offset always lies within [-720, 840]. -/
theorem schedule_tz_value_mem (root sobj : Json) :
    -720 ≤ schedule_tz_value root sobj ∧ schedule_tz_value root sobj ≤ 840 := by
  unfold schedule_tz_value
  split
  · split
    · rename_i hrange
      omega
    · omega
  · omega

/-- A successfully parsed schedule is range-valid. -/
theorem parse_schedule_config_valid (root : Json) (s : NodeSchedule)
    (h : parse_schedule_config root = some s) : is_valid_schedule s = true := by
  unfold parse_schedule_config at h
  split at h
  · split at h
    · split at h
      · rename_i hl hp hm hf
        injection h with hs
        have h1 := parse_schedule_timer_valid _ _ _ hl
        have h2 := parse_schedule_timer_valid _ _ _ hp
        have h3 := parse_schedule_timer_valid _ _ _ hm
        have h4 := parse_schedule_timer_valid _ _ _ hf
        rw [← hs]
        simp only [is_valid_schedule, Bool.and_eq_true, decide_eq_true_eq]
        exact ⟨⟨⟨⟨⟨h1, h2⟩, h3⟩, h4⟩, (schedule_tz_value_mem root _).1⟩,
          (schedule_tz_value_mem root _).2⟩
      · exact absurd h (by simp)
    · exact absurd h (by simp)
  · exact absurd h (by simp)

/-! ## Field-preservation projections through the parse blocks -/

/-- requestId block preserves the schedule fields. -/
theorem apply_request_id_sched (root : Json) (cmd : MqttCommand) :
    (apply_request_id root cmd).has_schedule = cmd.has_schedule ∧
    (apply_request_id root cmd).schedule = cmd.schedule := by
  rw [apply_request_id_shape]; exact ⟨rfl, rfl⟩

/-- deviceName block preserves the schedule fields. -/
theorem apply_device_name_sched (root : Json) (cmd : MqttCommand) :
    (apply_device_name root cmd).has_schedule = cmd.has_schedule ∧
    (apply_device_name root cmd).schedule = cmd.schedule := by
  rw [apply_device_name_shape]; exact ⟨rfl, rfl⟩

/-- sensorMode block preserves the schedule fields. -/
theorem apply_sensor_mode_sched (root : Json) (cmd : MqttCommand) :
    (apply_sensor_mode root cmd).has_schedule = cmd.has_schedule ∧
    (apply_sensor_mode root cmd).schedule = cmd.schedule := by
  rw [apply_sensor_mode_shape]; exact ⟨rfl, rfl⟩

/-- sensorsEnabled block preserves the schedule fields. -/
theorem apply_sensors_enabled_sched (root : Json) (cmd : MqttCommand) :
    (apply_sensors_enabled root cmd).has_schedule = cmd.has_schedule ∧
    (apply_sensors_enabled root cmd).schedule = cmd.schedule := by
  rw [apply_sensors_enabled_shape]; exact ⟨rfl, rfl⟩

/-- action block preserves the schedule fields. -/
theorem apply_action_sched (root : Json) (cmd : MqttCommand) :
    (apply_action root cmd).has_schedule = cmd.has_schedule ∧
    (apply_action root cmd).schedule = cmd.schedule := by
  rw [apply_action_shape]; exact ⟨rfl, rfl⟩

/-- actuator cascade preserves the schedule fields. -/
theorem apply_actuators_sched (root : Json) (cmd : MqttCommand) :
    (apply_actuators root cmd).has_schedule = cmd.has_schedule ∧
    (apply_actuators root cmd).schedule = cmd.schedule := by
  rw [apply_actuators_shape]; exact ⟨rfl, rfl⟩

/-- schedule block preserves the sensor-mode fields. -/
theorem apply_schedule_sensor (root : Json) (cmd : MqttCommand) :
    (apply_schedule root cmd).sensor_mode = cmd.sensor_mode ∧
    (apply_schedule root cmd).has_sensor_mode = cmd.has_sensor_mode := by
  rw [apply_schedule_shape]; exact ⟨rfl, rfl⟩

/-- action block preserves the sensor-mode fields. -/
theorem apply_action_sensor (root : Json) (cmd : MqttCommand) :
    (apply_action root cmd).sensor_mode = cmd.sensor_mode ∧
    (apply_action root cmd).has_sensor_mode = cmd.has_sensor_mode := by
  rw [apply_action_shape]; exact ⟨rfl, rfl⟩

/-- actuator cascade preserves the sensor-mode fields. -/
theorem apply_actuators_sensor (root : Json) (cmd : MqttCommand) :
    (apply_actuators root cmd).sensor_mode = cmd.sensor_mode ∧
    (apply_actuators root cmd).has_sensor_mode = cmd.has_sensor_mode := by
  rw [apply_actuators_shape]; exact ⟨rfl, rfl⟩

/-! ## Claim C3: config updates take exclusive priority -/

/-- C3: whenever any identity/config field of the payload successfully
parses, the command resolves to `ConfigUpdate`, no actuator flag or
duration is set, and the parse result is identical to that of the same
payload with the `action`, `command`, `pump`, `fan`, `mister`, `light`
and `duration_ms` keys removed — those keys are never inspected. -/
theorem c3_config_update_priority (root : Json)
    (h : any_config_field_parsed root = true) :
    (mqtt_parse_command (some root)).type = .configUpdate ∧
    (mqtt_parse_command (some root)).pump_on = false ∧
    (mqtt_parse_command (some root)).fan_on = false ∧
    (mqtt_parse_command (some root)).mister_on = false ∧
    (mqtt_parse_command (some root)).light_on = false ∧
    (mqtt_parse_command (some root)).duration_ms = 0 ∧
    mqtt_parse_command (some root) =
      mqtt_parse_command (some (jdrop root actuator_read_keys)) := by
  have htype : (config_phase root).type = .configUpdate := by
    rw [config_phase_type, if_pos h]
  have hp := mqtt_parse_eq_config root htype
  obtain ⟨h1, h2, h3, h4, h5⟩ := config_phase_act_fields root
  have hdrop := config_phase_jdrop_actuator_keys root
  refine ⟨by rw [hp, htype], by rw [hp]; exact h1, by rw [hp]; exact h2,
    by rw [hp]; exact h3, by rw [hp]; exact h4, by rw [hp]; exact h5, ?_⟩
  rw [hp, mqtt_parse_eq_config _ (by rw [hdrop]; exact htype), hdrop]

/-- C3 witness: a payload carrying both a device name and a pump
command resolves to a config update with no pump flag or duration set,
and parses identically without its actuator keys. -/
theorem c3_witness :
    (mqtt_parse_command (some (.jobj [("deviceName", .jstr "Basil"),
        ("pump", .jbool true), ("duration_ms", .jnum 1500)]))).type =
      MqttCommandType.configUpdate ∧
    (mqtt_parse_command (some (.jobj [("deviceName", .jstr "Basil"),
        ("pump", .jbool true), ("duration_ms", .jnum 1500)]))).pump_on = false ∧
    (mqtt_parse_command (some (.jobj [("deviceName", .jstr "Basil"),
        ("pump", .jbool true), ("duration_ms", .jnum 1500)]))).duration_ms = 0 := by
  have h := c3_config_update_priority
    (.jobj [("deviceName", .jstr "Basil"), ("pump", .jbool true),
      ("duration_ms", .jnum 1500)]) (by decide)
  exact ⟨h.1, h.2.1, h.2.2.2.2.2.1⟩

/-! ## Claim C4: actuator key cascade -/

/-- C4 counterexample: in `{"pump":"x","fan":true}` the first actuator
key holding a boolean or the literal "on"/"off" is `fan`, so the claim
predicts a fan override with the flag on; the code instead qualifies
`pump` on any string value and resolves a pump override with
`pump_on = false`, ignoring `fan`. -/
theorem c4_counterexample :
    (mqtt_parse_command (some (.jobj [("pump", .jstr "x"),
        ("fan", .jbool true)]))).type = MqttCommandType.pumpOverride ∧
    (mqtt_parse_command (some (.jobj [("pump", .jstr "x"),
        ("fan", .jbool true)]))).type ≠ MqttCommandType.fanOverride ∧
    (mqtt_parse_command (some (.jobj [("pump", .jstr "x"),
        ("fan", .jbool true)]))).pump_on = false ∧
    (mqtt_parse_command (some (.jobj [("pump", .jstr "x"),
        ("fan", .jbool true)]))).fan_on = false := by decide

/-- C4 (amended): outside config updates the actuator keys are checked
in the fixed order pump, fan, mister, light; a key qualifies when its
value is a boolean or any string (the flag is on for boolean true or
the literal string "on", off for every other accepted value, including
strings other than "off"); the first qualifying key alone determines
the command type and flag, later qualifying keys are ignored, and a
positive integer `duration_ms` is attached to that same override. -/
theorem c4_amended_actuator_cascade (root : Json) (b : Bool)
    (hna : (mqtt_parse_command (some root)).type ≠ .configUpdate) :
    ((jget root "pump").bind actuator_flag = some b →
      (mqtt_parse_command (some root)).type = .pumpOverride ∧
      (mqtt_parse_command (some root)).pump_on = b ∧
      (mqtt_parse_command (some root)).fan_on = false ∧
      (mqtt_parse_command (some root)).mister_on = false ∧
      (mqtt_parse_command (some root)).light_on = false ∧
      (mqtt_parse_command (some root)).duration_ms = (get_duration root).getD 0) ∧
    ((jget root "pump").bind actuator_flag = none →
      ((jget root "fan").bind actuator_flag = some b →
        (mqtt_parse_command (some root)).type = .fanOverride ∧
        (mqtt_parse_command (some root)).fan_on = b ∧
        (mqtt_parse_command (some root)).pump_on = false ∧
        (mqtt_parse_command (some root)).mister_on = false ∧
        (mqtt_parse_command (some root)).light_on = false ∧
        (mqtt_parse_command (some root)).duration_ms = (get_duration root).getD 0) ∧
      ((jget root "fan").bind actuator_flag = none →
        ((jget root "mister").bind actuator_flag = some b →
          (mqtt_parse_command (some root)).type = .misterOverride ∧
          (mqtt_parse_command (some root)).mister_on = b ∧
          (mqtt_parse_command (some root)).pump_on = false ∧
          (mqtt_parse_command (some root)).fan_on = false ∧
          (mqtt_parse_command (some root)).light_on = false ∧
          (mqtt_parse_command (some root)).duration_ms = (get_duration root).getD 0) ∧
        ((jget root "mister").bind actuator_flag = none →
          (jget root "light").bind actuator_flag = some b →
          (mqtt_parse_command (some root)).type = .lightOverride ∧
          (mqtt_parse_command (some root)).light_on = b ∧
          (mqtt_parse_command (some root)).pump_on = false ∧
          (mqtt_parse_command (some root)).fan_on = false ∧
          (mqtt_parse_command (some root)).mister_on = false ∧
          (mqtt_parse_command (some root)).duration_ms = (get_duration root).getD 0))) := by
  have hcfg : (config_phase root).type ≠ .configUpdate := by
    intro hc
    exact hna (by rw [mqtt_parse_eq_config root hc, hc])
  have hp := mqtt_parse_eq_actuator root hcfg
  obtain ⟨ha1, ha2, ha3, ha4, ha5⟩ := config_phase_act_fields root
  have hb1 : (apply_action root (config_phase root)).pump_on = false := by
    rw [apply_action_shape]; exact ha1
  have hb2 : (apply_action root (config_phase root)).fan_on = false := by
    rw [apply_action_shape]; exact ha2
  have hb3 : (apply_action root (config_phase root)).mister_on = false := by
    rw [apply_action_shape]; exact ha3
  have hb4 : (apply_action root (config_phase root)).light_on = false := by
    rw [apply_action_shape]; exact ha4
  have hb5 : (apply_action root (config_phase root)).duration_ms = 0 := by
    rw [apply_action_shape]; exact ha5
  rw [hp]
  unfold apply_actuators
  refine ⟨?_, ?_⟩
  · intro hpump
    rw [hpump]
    cases hd : get_duration root with
    | some d => exact ⟨rfl, rfl, hb2, hb3, hb4, rfl⟩
    | none => exact ⟨rfl, rfl, hb2, hb3, hb4, hb5⟩
  · intro hpump
    rw [hpump]
    refine ⟨?_, ?_⟩
    · intro hfan
      rw [hfan]
      cases hd : get_duration root with
      | some d => exact ⟨rfl, rfl, hb1, hb3, hb4, rfl⟩
      | none => exact ⟨rfl, rfl, hb1, hb3, hb4, hb5⟩
    · intro hfan
      rw [hfan]
      refine ⟨?_, ?_⟩
      · intro hmister
        rw [hmister]
        cases hd : get_duration root with
        | some d => exact ⟨rfl, rfl, hb1, hb2, hb4, rfl⟩
        | none => exact ⟨rfl, rfl, hb1, hb2, hb4, hb5⟩
      · intro hmister hlight
        rw [hmister, hlight]
        cases hd : get_duration root with
        | some d => exact ⟨rfl, rfl, hb1, hb2, hb3, rfl⟩
        | none => exact ⟨rfl, rfl, hb1, hb2, hb3, hb5⟩

/-- C4 witness: `{"pump":true,"fan":true,"duration_ms":1500}` resolves
to a pump override with the duration attached and `fan` ignored. -/
theorem c4_witness :
    (mqtt_parse_command (some (.jobj [("pump", .jbool true), ("fan", .jbool true),
        ("duration_ms", .jnum 1500)]))).type = MqttCommandType.pumpOverride ∧
    (mqtt_parse_command (some (.jobj [("pump", .jbool true), ("fan", .jbool true),
        ("duration_ms", .jnum 1500)]))).pump_on = true ∧
    (mqtt_parse_command (some (.jobj [("pump", .jbool true), ("fan", .jbool true),
        ("duration_ms", .jnum 1500)]))).fan_on = false ∧
    (mqtt_parse_command (some (.jobj [("pump", .jbool true), ("fan", .jbool true),
        ("duration_ms", .jnum 1500)]))).duration_ms = 1500 := by
  have h := c4_amended_actuator_cascade
    (.jobj [("pump", .jbool true), ("fan", .jbool true), ("duration_ms", .jnum 1500)])
    true (by decide)
  have h1 := h.1 (by decide)
  exact ⟨h1.1, h1.2.1, h1.2.2.1, h1.2.2.2.2.2.trans (by decide)⟩

/-! ## Claim C8: requestId copy / silent-drop policy -/

/-- C8: a string `requestId` strictly shorter than the 64-byte bound is
copied into the command verbatim; one at or above the bound leaves the
command's `request_id` empty and does not change the resolved command
type relative to the identical payload without the `requestId` field. -/
theorem c8_request_id_policy (root : Json) (s : String)
    (h : jgetStr root "requestId" = some s) :
    (s.utf8ByteSize < 64 → (mqtt_parse_command (some root)).request_id = s) ∧
    (64 ≤ s.utf8ByteSize →
      (mqtt_parse_command (some root)).request_id = "" ∧
      (mqtt_parse_command (some root)).type =
        (mqtt_parse_command (some (jdrop root ["requestId"]))).type) := by
  have hreq : (mqtt_parse_command (some root)).request_id =
      (apply_request_id root mqtt_cmd_default).request_id := by
    by_cases hc : (config_phase root).type = .configUpdate
    · rw [mqtt_parse_eq_config root hc, config_phase_request_id]
    · rw [mqtt_parse_eq_actuator root hc, apply_actuators_request_id,
        apply_action_request_id, config_phase_request_id]
  constructor
  · intro hlt
    rw [hreq]
    unfold apply_request_id
    simp only [h]
    rw [if_pos hlt]
  · intro hge
    refine ⟨?_, ?_⟩
    · rw [hreq]
      unfold apply_request_id
      simp only [h]
      rw [if_neg (by omega)]
    · rw [parse_drop_request_id root]

/-- C8 witness: a 70-byte `requestId` is dropped (empty field) and the
command still resolves to the same type as without the field. -/
theorem c8_witness :
    (mqtt_parse_command (some (.jobj [("action", .jstr "sensor_read"),
        ("requestId", .jstr (String.mk (List.replicate 70 'a')))]))).request_id = "" ∧
    (mqtt_parse_command (some (.jobj [("action", .jstr "sensor_read"),
        ("requestId", .jstr (String.mk (List.replicate 70 'a')))]))).type =
      (mqtt_parse_command (some (jdrop (.jobj [("action", .jstr "sensor_read"),
        ("requestId", .jstr (String.mk (List.replicate 70 'a')))]) ["requestId"]))).type := by
  have h := c8_request_id_policy
    (.jobj [("action", .jstr "sensor_read"),
      ("requestId", .jstr (String.mk (List.replicate 70 'a')))])
    (String.mk (List.replicate 70 'a')) (by decide)
  exact h.2 (by decide)

/-! ## Claim C9: parser-produced schedules are always valid -/

/-- C9: whenever the parsed command carries a schedule
(`has_schedule = true`), that schedule satisfies the engine's validity
predicate, so `node_schedule_set` on an initialized engine never
rejects a parser-produced schedule with the range-validation error. -/
theorem c9_parsed_schedule_valid (p : Option Json)
    (h : (mqtt_parse_command p).has_schedule = true) :
    is_valid_schedule (mqtt_parse_command p).schedule = true ∧
    (∀ env st, st.initialized = true →
      (node_schedule_set env st (mqtt_parse_command p).schedule).1 ≠ .errInvalidArg) := by
  have key : is_valid_schedule (mqtt_parse_command p).schedule = true := by
    cases p with
    | none => exact absurd h (by decide)
    | some root =>
      have hsched : (mqtt_parse_command (some root)).has_schedule =
            (config_phase root).has_schedule ∧
          (mqtt_parse_command (some root)).schedule = (config_phase root).schedule := by
        by_cases hc : (config_phase root).type = .configUpdate
        · rw [mqtt_parse_eq_config root hc]
          exact ⟨rfl, rfl⟩
        · rw [mqtt_parse_eq_actuator root hc]
          refine ⟨?_, ?_⟩
          · rw [(apply_actuators_sched _ _).1, (apply_action_sched _ _).1]
          · rw [(apply_actuators_sched _ _).2, (apply_action_sched _ _).2]
      cases hps : parse_schedule_config root with
      | none =>
        exfalso
        have hfalse : (config_phase root).has_schedule = false := by
          unfold config_phase apply_schedule
          rw [hps]
          rw [(apply_sensors_enabled_sched _ _).1, (apply_sensor_mode_sched _ _).1,
            (apply_device_name_sched _ _).1, (apply_request_id_sched _ _).1]
          rfl
        rw [hsched.1, hfalse] at h
        exact absurd h (by decide)
      | some s0 =>
        have hval : (config_phase root).schedule = s0 := by
          unfold config_phase apply_schedule
          rw [hps]
        rw [hsched.2, hval]
        exact parse_schedule_config_valid root s0 hps
  refine ⟨key, ?_⟩
  intro env st hinit
  unfold node_schedule_set
  simp only [hinit, key]
  intro hcontra
  rw [if_neg (by simp)] at hcontra
  rw [if_neg (by simp [key])] at hcontra
  have hsave : (save_schedule_locked st.store (mqtt_parse_command p).schedule).1 = .ok := rfl
  rw [if_neg (by rw [hsave]; simp)] at hcontra
  exact absurd hcontra (by simp)

/-- C9 witness: a concrete full-schedule payload parses with
`has_schedule = true`, its schedule is valid, and an initialized engine
does not reject it with the range error. -/
theorem c9_witness :
    is_valid_schedule (mqtt_parse_command (some (.jobj [("schedule", .jobj
      [("light", .jobj [("enabled", .jbool true), ("startTime", .jstr "06:00"),
        ("endTime", .jstr "20:00")]),
       ("pump", .jobj [("enabled", .jbool false), ("startTime", .jstr "07:00"),
        ("endTime", .jstr "07:15")]),
       ("mister", .jobj [("enabled", .jbool false), ("startTime", .jstr "08:00"),
        ("endTime", .jstr "08:15")]),
       ("fan", .jobj [("enabled", .jbool true), ("startTime", .jstr "23:00"),
        ("endTime", .jstr "01:00")])]),
      ("tzOffsetMinutes", .jnum 120)]))).schedule = true ∧
    (node_schedule_set { time_valid := false, now_sec := 0 }
      { initialized := true, schedule := node_schedule_defaults,
        store := NvsStore.empty,
        actuators := { light_on := false, pump_on := false,
                       mister_on := false, fan_on := false },
        last_applied_minute := -1 }
      (mqtt_parse_command (some (.jobj [("schedule", .jobj
        [("light", .jobj [("enabled", .jbool true), ("startTime", .jstr "06:00"),
          ("endTime", .jstr "20:00")]),
         ("pump", .jobj [("enabled", .jbool false), ("startTime", .jstr "07:00"),
          ("endTime", .jstr "07:15")]),
         ("mister", .jobj [("enabled", .jbool false), ("startTime", .jstr "08:00"),
          ("endTime", .jstr "08:15")]),
         ("fan", .jobj [("enabled", .jbool true), ("startTime", .jstr "23:00"),
          ("endTime", .jstr "01:00")])]),
        ("tzOffsetMinutes", .jnum 120)]))).schedule).1 ≠ EspErr.errInvalidArg := by
  have h := c9_parsed_schedule_valid (some (.jobj [("schedule", .jobj
      [("light", .jobj [("enabled", .jbool true), ("startTime", .jstr "06:00"),
        ("endTime", .jstr "20:00")]),
       ("pump", .jobj [("enabled", .jbool false), ("startTime", .jstr "07:00"),
        ("endTime", .jstr "07:15")]),
       ("mister", .jobj [("enabled", .jbool false), ("startTime", .jstr "08:00"),
        ("endTime", .jstr "08:15")]),
       ("fan", .jobj [("enabled", .jbool true), ("startTime", .jstr "23:00"),
        ("endTime", .jstr "01:00")])]),
      ("tzOffsetMinutes", .jnum 120)])) (by decide)
  exact ⟨h.1, h.2 { time_valid := false, now_sec := 0 }
    { initialized := true, schedule := node_schedule_defaults,
      store := NvsStore.empty,
      actuators := { light_on := false, pump_on := false,
                     mister_on := false, fan_on := false },
      last_applied_minute := -1 } rfl⟩

/-! ## Claim C10: sensorsEnabled overrides sensorMode -/

/-- C10: when a payload carries both a recognized `sensorMode` string
and a boolean `sensorsEnabled`, the boolean determines the resulting
sensor mode (`Full` when true, `ControlOnly` when false); either field
alone already marks the command `ConfigUpdate` with
`has_sensor_mode = true`. -/
theorem c10_sensors_enabled_overrides (root : Json) :
    (∀ s m b, jgetStr root "sensorMode" = some s →
      sensor_mode_of_string s = some m →
      jgetBool root "sensorsEnabled" = some b →
      (mqtt_parse_command (some root)).sensor_mode =
        (if b then SensorMode.full else SensorMode.controlOnly) ∧
      (mqtt_parse_command (some root)).has_sensor_mode = true ∧
      (mqtt_parse_command (some root)).type = .configUpdate) ∧
    (∀ s m, jgetStr root "sensorMode" = some s →
      sensor_mode_of_string s = some m →
      (mqtt_parse_command (some root)).has_sensor_mode = true ∧
      (mqtt_parse_command (some root)).type = .configUpdate) ∧
    (∀ b, jgetBool root "sensorsEnabled" = some b →
      (mqtt_parse_command (some root)).has_sensor_mode = true ∧
      (mqtt_parse_command (some root)).type = .configUpdate) := by
  refine ⟨?_, ?_, ?_⟩
  · intro s m b hs hm hb
    have hparsed : any_config_field_parsed root = true := by
      unfold any_config_field_parsed sensors_enabled_parsed
      rw [hb]
      simp
    have htype : (config_phase root).type = .configUpdate := by
      rw [config_phase_type, if_pos hparsed]
    have hp := mqtt_parse_eq_config root htype
    have hsm : (mqtt_parse_command (some root)).sensor_mode =
        (if b then SensorMode.full else SensorMode.controlOnly) := by
      rw [hp]
      unfold config_phase
      rw [(apply_schedule_sensor _ _).1]
      unfold apply_sensors_enabled
      simp only [hb]
    have hhs : (mqtt_parse_command (some root)).has_sensor_mode = true := by
      rw [hp]
      unfold config_phase
      rw [(apply_schedule_sensor _ _).2]
      unfold apply_sensors_enabled
      simp only [hb]
    exact ⟨hsm, hhs, by rw [hp]; exact htype⟩
  · intro s m hs hm
    have hparsed : any_config_field_parsed root = true := by
      unfold any_config_field_parsed sensor_mode_parsed
      simp only [hs]
      simp [hm]
    have htype : (config_phase root).type = .configUpdate := by
      rw [config_phase_type, if_pos hparsed]
    have hp := mqtt_parse_eq_config root htype
    have hhs : (mqtt_parse_command (some root)).has_sensor_mode = true := by
      rw [hp]
      unfold config_phase
      rw [(apply_schedule_sensor _ _).2]
      cases hjb : jgetBool root "sensorsEnabled" with
      | some b =>
        unfold apply_sensors_enabled
        simp only [hjb]
      | none =>
        unfold apply_sensors_enabled
        simp only [hjb]
        unfold apply_sensor_mode
        simp only [hs, hm]
    exact ⟨hhs, by rw [hp]; exact htype⟩
  · intro b hb
    have hparsed : any_config_field_parsed root = true := by
      unfold any_config_field_parsed sensors_enabled_parsed
      rw [hb]
      simp
    have htype : (config_phase root).type = .configUpdate := by
      rw [config_phase_type, if_pos hparsed]
    have hp := mqtt_parse_eq_config root htype
    have hhs : (mqtt_parse_command (some root)).has_sensor_mode = true := by
      rw [hp]
      unfold config_phase
      rw [(apply_schedule_sensor _ _).2]
      unfold apply_sensors_enabled
      simp only [hb]
    exact ⟨hhs, by rw [hp]; exact htype⟩

/-- C10 witness: `{"sensorMode":"full","sensorsEnabled":false}` yields
`ControlOnly` with `has_sensor_mode` set and a `ConfigUpdate` command. -/
theorem c10_witness :
    (mqtt_parse_command (some (.jobj [("sensorMode", .jstr "full"),
        ("sensorsEnabled", .jbool false)]))).sensor_mode = SensorMode.controlOnly ∧
    (mqtt_parse_command (some (.jobj [("sensorMode", .jstr "full"),
        ("sensorsEnabled", .jbool false)]))).has_sensor_mode = true ∧
    (mqtt_parse_command (some (.jobj [("sensorMode", .jstr "full"),
        ("sensorsEnabled", .jbool false)]))).type = MqttCommandType.configUpdate := by
  have h := (c10_sensors_enabled_overrides (.jobj [("sensorMode", .jstr "full"),
    ("sensorsEnabled", .jbool false)])).1 "full" SensorMode.full false
    (by decide) (by decide) (by decide)
  exact ⟨h.1, h.2.1, h.2.2⟩

/-! ## NVS lookup-after-write lemmas -/

/-- Filtering out one (namespace, key) slot does not affect `find?` for
a different slot. -/
theorem find?_filter_entry (l : List ((String × String) × NvsVal)) (a b : String × String)
    (hab : a ≠ b) :
    (l.filter (fun e => !(e.1.1 == a.1 && e.1.2 == a.2))).find?
        (fun e => e.1.1 == b.1 && e.1.2 == b.2) =
      l.find? (fun e => e.1.1 == b.1 && e.1.2 == b.2) := by
  induction l with
  | nil => rfl
  | cons e rest ih =>
    rw [List.filter_cons]
    by_cases hea : e.1 = a
    · have hb : ¬ (e.1.1 = b.1 ∧ e.1.2 = b.2) := by
        intro hcontra
        exact hab (by
          rw [← hea]
          exact Prod.ext hcontra.1 hcontra.2)
      rw [if_neg (by simp [hea]), ih, List.find?_cons_of_neg _ (by simpa using hb)]
    · have hna : ¬ (e.1.1 = a.1 ∧ e.1.2 = a.2) := by
        intro hcontra
        exact hea (Prod.ext hcontra.1 hcontra.2)
      rw [if_pos (by rcases not_and_or.mp hna with h' | h' <;> simp [h'])]
      by_cases heb : e.1.1 = b.1 ∧ e.1.2 = b.2
      · rw [List.find?_cons_of_pos _ (by simpa using heb),
          List.find?_cons_of_pos _ (by simpa using heb)]
      · rw [List.find?_cons_of_neg _ (by simpa using heb),
          List.find?_cons_of_neg _ (by simpa using heb), ih]

/-- Reading back the slot just written. -/
theorem nvsFind_set_eq (st : NvsStore) (ns key : String) (v : NvsVal) :
    nvsFind (nvsSet st ns key v) ns key = some v := by
  unfold nvsFind nvsSet
  rw [List.find?_cons_of_pos _ (by simp)]
  rfl

/-- Reading a different slot after a write. -/
theorem nvsFind_set_ne (st : NvsStore) (ns key ns2 key2 : String) (v : NvsVal)
    (h : ¬ (ns = ns2 ∧ key = key2)) :
    nvsFind (nvsSet st ns key v) ns2 key2 = nvsFind st ns2 key2 := by
  unfold nvsFind nvsSet
  rw [List.find?_cons_of_neg _ (by simpa using fun h1 h2 => h ⟨h1, h2⟩)]
  rw [find?_filter_entry st.entries (ns, key) (ns2, key2)
    (by intro hc; exact h ⟨congrArg Prod.fst hc, congrArg Prod.snd hc⟩)]

/-! ## Buffer-bound lemmas for the onboarding strings -/

/-- The truncated default never exceeds the buffer. -/
theorem copy_default_str_le (cap : Nat) (d : String) :
    (copy_default_str cap d).utf8ByteSize ≤ cap - 1 := by
  unfold copy_default_str
  simpa using utf8Len_takeBytes_le d.data (cap - 1)

/-- The out value of `load_persisted_str` is whatever `prefs_get_str`
left in the buffer. -/
theorem load_persisted_str_snd (store : NvsStore) (key : String) (cap : Nat) (dflt : String) :
    (load_persisted_str store key cap dflt).2 =
      (prefs_get_str store "onboard" key (safe_copy cap dflt) cap dflt).2 := by
  unfold load_persisted_str
  dsimp only
  split <;> rfl

/-- Any string `prefs_get_str` leaves in a bounded buffer fits it. -/
theorem prefs_get_str_snd_le (store : NvsStore) (ns key : String) (out0 : String)
    (cap : Nat) (dflt : String) (hout : out0.utf8ByteSize ≤ cap - 1) :
    (prefs_get_str store ns key out0 cap dflt).2.utf8ByteSize ≤ cap - 1 := by
  unfold prefs_get_str
  split
  · exact hout
  · split
    · split
      · split
        · rename_i hfits
          dsimp only
          omega
        · exact hout
      · exact copy_default_str_le cap dflt
      · exact hout
    · exact hout

/-- The loaded hub strings fit their buffers. -/
theorem load_persisted_str_le (store : NvsStore) (key : String) (cap : Nat) (dflt : String) :
    (load_persisted_str store key cap dflt).2.utf8ByteSize ≤ cap - 1 := by
  rw [load_persisted_str_snd]
  exact prefs_get_str_snd_le store "onboard" key _ cap dflt (safe_copy_utf8ByteSize_le cap dflt)

/-- Copying a loaded onboarding string into the out state is the
identity. -/
theorem safe_copy_128_load (store : NvsStore) (key dflt : String) :
    safe_copy 128 (load_persisted_str store key 128 dflt).2 =
      (load_persisted_str store key 128 dflt).2 := by
  apply safe_copy_of_fits
  have := load_persisted_str_le store key 128 dflt
  omega

/-! ## Claim C1: onboarding fallback short-circuit -/

/-- C1 counterexample: a factory-default device (no provisioned
credentials) whose compiled-in fallback credential connects returns
success with `wifi_connected = true` and `provisioning_started = false`
— but with `factory_default = false`, not `true` as the claim states:
the code overwrites the flag on the fallback short-circuit. -/
theorem c1_counterexample :
    (startup_onboarding_run env_fallback_ok NvsStore.empty (some "pot-1234")
      (some "mqtt://hub.local") (some "net") (some "pw")).err = EspErr.ok ∧
    (startup_onboarding_run env_fallback_ok NvsStore.empty (some "pot-1234")
      (some "mqtt://hub.local") (some "net") (some "pw")).state.wifi_connected = true ∧
    (startup_onboarding_run env_fallback_ok NvsStore.empty (some "pot-1234")
      (some "mqtt://hub.local") (some "net") (some "pw")).state.provisioning_started =
      false ∧
    (startup_onboarding_run env_fallback_ok NvsStore.empty (some "pot-1234")
      (some "mqtt://hub.local") (some "net") (some "pw")).state.factory_default =
      false := by decide

/-- C1 (amended): for a device that is not provisioned and a
compiled-in fallback credential whose connect attempt succeeds,
`startup_onboarding_run` returns success and the resulting state has
`factory_default = false` (the code clears the flag once the fallback
connect succeeds and onboarding is marked complete),
`wifi_connected = true` and `provisioning_started = false`, with the
onboarding-complete flag persisted, and the hub settings persisted
whenever the resolved MQTT URI is non-empty. -/
theorem c1_amended_fallback_short_circuit (env : OnboardEnv) (store0 : NvsStore)
    (device_id : Option String) (dflt_uri ssid : String) (pw : Option String)
    (h1 : env.init_wifi_err = .ok) (h2 : env.prov_init_err = .ok)
    (h3 : env.is_provisioned_err = .ok) (h4 : env.wifi_provisioned = false)
    (h5 : ssid ≠ "") (h6 : env.fallback_connect = .ok) :
    (startup_onboarding_run env store0 device_id (some dflt_uri) (some ssid) pw).err =
      .ok ∧
    (startup_onboarding_run env store0 device_id (some dflt_uri) (some ssid) pw).state =
      { factory_default := false, provisioning_started := false,
        wifi_connected := true, ble_transport := false,
        mqtt_uri := onboard_loaded_mqtt_uri store0 dflt_uri,
        hub_url := onboard_loaded_hub_url store0 } ∧
    nvsFind
      (startup_onboarding_run env store0 device_id (some dflt_uri) (some ssid) pw).store
      "onboard" "complete" = some (.vu8 1) ∧
    (onboard_loaded_mqtt_uri store0 dflt_uri ≠ "" →
      nvsFind
        (startup_onboarding_run env store0 device_id (some dflt_uri) (some ssid) pw).store
        "onboard" "mqtt_uri" = some (.vstr (onboard_loaded_mqtt_uri store0 dflt_uri)) ∧
      nvsFind
        (startup_onboarding_run env store0 device_id (some dflt_uri) (some ssid) pw).store
        "onboard" "hub_url" = some (.vstr (onboard_loaded_hub_url store0))) := by
  have hfb : connect_with_fallback_credentials env (some ssid) (some (pw.getD "")) = .ok := by
    unfold connect_with_fallback_credentials
    dsimp only
    rw [if_neg h5, h6]
  have hrun : startup_onboarding_run env store0 device_id (some dflt_uri) (some ssid) pw =
      { err := .ok,
        state := { factory_default := false, provisioning_started := false,
                   wifi_connected := true, ble_transport := false,
                   mqtt_uri := safe_copy 128 (onboard_loaded_mqtt_uri store0 dflt_uri),
                   hub_url := safe_copy 128 (onboard_loaded_hub_url store0) },
        store := (persist_hub_settings (persist_onboarding_complete store0 true).2
          (onboard_loaded_mqtt_uri store0 dflt_uri) (onboard_loaded_hub_url store0)).2 } := by
    unfold startup_onboarding_run
    rw [h1, h2, h3, h4, hfb]
    simp [h5]
  refine ⟨by rw [hrun], ?_, ?_, ?_⟩
  · rw [hrun]
    unfold onboard_loaded_mqtt_uri onboard_loaded_hub_url
    rw [safe_copy_128_load, safe_copy_128_load]
  · rw [hrun]
    unfold persist_hub_settings
    by_cases huri : onboard_loaded_mqtt_uri store0 dflt_uri = ""
    · rw [if_pos huri]
      dsimp only
      unfold persist_onboarding_complete prefs_put_bool prefs_put_u8
      exact nvsFind_set_eq store0 _ "complete" _
    · rw [if_neg huri]
      dsimp only
      unfold prefs_put_str persist_onboarding_complete prefs_put_bool prefs_put_u8
      dsimp only
      rw [nvsFind_set_ne _ _ _ _ _ _ (by decide), nvsFind_set_ne _ _ _ _ _ _ (by decide)]
      exact nvsFind_set_eq store0 _ "complete" _
  · intro huri
    rw [hrun]
    unfold persist_hub_settings
    rw [if_neg huri]
    dsimp only
    unfold prefs_put_str persist_onboarding_complete prefs_put_bool prefs_put_u8
    dsimp only
    constructor
    · rw [nvsFind_set_ne _ _ _ _ _ _ (by decide)]
      exact nvsFind_set_eq _ _ "mqtt_uri" _
    · exact nvsFind_set_eq _ _ "hub_url" _

/-- C1 witness: a concrete factory-default run with a working fallback
credential, instantiating the amended theorem. -/
theorem c1_witness :
    (startup_onboarding_run env_fallback_ok NvsStore.empty (some "pot-9")
      (some "mqtt://hub.local") (some "HomeNet") (some "secret")).err = EspErr.ok ∧
    (startup_onboarding_run env_fallback_ok NvsStore.empty (some "pot-9")
      (some "mqtt://hub.local") (some "HomeNet") (some "secret")).state =
      { factory_default := false, provisioning_started := false,
        wifi_connected := true, ble_transport := false,
        mqtt_uri := onboard_loaded_mqtt_uri NvsStore.empty "mqtt://hub.local",
        hub_url := onboard_loaded_hub_url NvsStore.empty } ∧
    nvsFind (startup_onboarding_run env_fallback_ok NvsStore.empty (some "pot-9")
      (some "mqtt://hub.local") (some "HomeNet") (some "secret")).store
      "onboard" "complete" = some (.vu8 1) ∧
    nvsFind (startup_onboarding_run env_fallback_ok NvsStore.empty (some "pot-9")
      (some "mqtt://hub.local") (some "HomeNet") (some "secret")).store
      "onboard" "mqtt_uri" =
      some (.vstr (onboard_loaded_mqtt_uri NvsStore.empty "mqtt://hub.local")) := by
  have h := c1_amended_fallback_short_circuit env_fallback_ok NvsStore.empty (some "pot-9")
    "mqtt://hub.local" "HomeNet" (some "secret") rfl rfl rfl rfl (by decide) rfl
  exact ⟨h.1, h.2.1, h.2.2.1, (h.2.2.2 (by decide)).1⟩

end ProjectPlant
